import Mathlib

/-!
# CSerialPort: a shallow embedding of `SerialPort.cpp` / `SerialPort.h`

The class `CSerialPort` owns one serial device, a write staging buffer, three Win32
event objects and one worker thread (`CommThread`).  The embedding keeps the member
fields of the class in the structure `CSerialPort` and puts everything that lives
outside the object (the signalled state of the kernel event objects, the device, the
window-message queue of the owner, the error dialogs) in the structure `World`.

Conventions of the embedding:

* `int` is `Int`, wrapped to 32 bits by `toInt32` where the source computes in `int`;
  `DWORD`/`UINT` is `Nat`, wrapped by `toDWORD`.
* `assert(e)` is active (debug build): a failed assertion ends the call with
  `Exit.assertFailed`, and the world returned with it is the world at that point.
* A memory access outside the staging-buffer array ends the call with `Exit.fault`.
* A failed `new char[n]` throws `std::bad_alloc`; the exception leaves the member
  function at once and ends the call with `Exit.threw`.
* Results of Win32 calls that the program cannot determine are arguments of the
  embedded function (`OpenEnv`, `WriteOutcome`, `ReadOutcome`, `IterEnv`); the results
  of `FormatMessage` and `LocalAlloc` inside `ProcessErrorMessage` are read from
  `World.formats`.
* `EnterCriticalSection` / `LeaveCriticalSection` guard the bodies that are embedded
  as single functions here; they carry no state of their own in a sequential run.
* `m_szTitle`, `m_nComArray` and `m_pOwner`'s window text are used only for dialogs
  and port enumeration and are not embedded.
-/

namespace SerialPort

/-! ## Machine integers -/

/-- Conversion of an integer to a 32-bit `int` (two's complement wrap-around). -/
def toInt32 (z : Int) : Int := (z + 2147483648) % 4294967296 - 2147483648

/-- Conversion of an integer to a 32-bit `DWORD` / `UINT`. -/
def toDWORD (z : Int) : Nat := (z % 4294967296).toNat

/-- One `char` / `unsigned char` of payload. -/
abbrev BYTE := Fin 256

/-! ## Handles, kernel events, messages -/

/-- A Win32 `HANDLE`: `NULL`, `INVALID_HANDLE_VALUE`, or a kernel object. -/
inductive HANDLE where
  | NULL
  | INVALID_HANDLE_VALUE
  | obj (id : Nat)
  deriving DecidableEq, Repr

/-- The call `SetEvent(h)` on the set of signalled event objects. -/
def SetEvent (signaled : List Nat) : HANDLE → List Nat
  | .obj e => if e ∈ signaled then signaled else e :: signaled
  | _ => signaled

/-- The call `ResetEvent(h)` on the set of signalled event objects. -/
def ResetEvent (signaled : List Nat) : HANDLE → List Nat
  | .obj e => signaled.filter (fun x => x != e)
  | _ => signaled

/-- Whether the event object behind `h` is signalled. -/
def isSignaled (signaled : List Nat) : HANDLE → Bool
  | .obj e => decide (e ∈ signaled)
  | _ => false

/-- Indices of `m_hEventArray` (`t_event_type` in `SerialPort.h`). -/
def EVENT_SHUTDOWN : Nat := 0
/-- Index of the read event in `m_hEventArray`. -/
def EVENT_READ : Nat := 1
/-- Index of the write event in `m_hEventArray`. -/
def EVENT_WRITE : Nat := 2
/-- Number of entries of `m_hEventArray`. -/
def EVENT_TYPE_MAX : Nat := 3

/-- Win32 communication event bits (`winbase.h`). -/
def EV_RXCHAR : Nat := 0x0001
/-- Event character received. -/
def EV_RXFLAG : Nat := 0x0002
/-- Transmit queue empty. -/
def EV_TXEMPTY : Nat := 0x0004
/-- CTS changed state. -/
def EV_CTS : Nat := 0x0008
/-- DSR changed state. -/
def EV_DSR : Nat := 0x0010
/-- RLSD (carrier detect) changed state. -/
def EV_RLSD : Nat := 0x0020
/-- BREAK received. -/
def EV_BREAK : Nat := 0x0040
/-- Line status error occurred. -/
def EV_ERR : Nat := 0x0080
/-- Ring signal detected. -/
def EV_RING : Nat := 0x0100

/-- The constant `SERIAL_PORT_MAX` of `SerialPort.h`. -/
def SERIAL_PORT_MAX : Nat := 256

/-- A `::PostMessage(m_pOwner, SERIAL_PORT_MESSAGE, wParam, lParam)` to the owner. -/
structure MSG where
  wParam : Nat
  lParam : Nat
  deriving DecidableEq, Repr

/-- The text of an error dialog: the string literal handed to `ProcessErrorMessage`. -/
inductive ErrorText where
  | SetCommState
  | GetCommState
  | SetCommMask
  | SetCommTimeouts
  | SetupComm
  | PurgeComm
  | CreateThread
  | WaitCommEvent
  | WriteFile
  | GetOverlappedResult_in_WriteFile
  | ReadFile
  | GetOverlappedResult_in_ReadFile
  /-- Not passed to `ProcessErrorMessage`: the `MessageBox` of the `default` branch of
  `CommThread`, "WaitForMultipleObjects() returned unexpected event:". -/
  | unexpectedEvent
  deriving DecidableEq, Repr

/-- The `assert` statements of `SerialPort.cpp`. -/
inductive Assertion where
  /-- Open: `port >= 0 && port <= SERIAL_PORT_MAX`. -/
  | portInRange
  /-- Open: `pPortOwner != NULL`. -/
  | ownerNotNull
  /-- Open: `m_Thread == NULL`. -/
  | threadIsNull
  /-- WriteChar: `(BytesSentA + BytesSentB) == pPort->m_nWriteSize`. -/
  | bytesSentMatch
  /-- Write: `m_hComm != INVALID_HANDLE_VALUE`. -/
  | commValid
  /-- Write: `Buffer != NULL`. -/
  | bufferNotNull
  /-- Write: `nSize > 0`. -/
  | sizePositive
  /-- Write: `( m_nWriteSize + nSize ) < ( int )m_nWriteBufferSize`. -/
  | fitsBuffer
  deriving DecidableEq, Repr

/-- How a call of an embedded member function ends. -/
inductive Exit (α : Type) where
  /-- The function returned `v`. -/
  | ret (v : α)
  /-- An `assert` failed and aborted the program. -/
  | assertFailed (a : Assertion)
  /-- A memory access outside an allocated object, or through `NULL`. -/
  | fault
  /-- A C++ exception left the function: `new` threw `std::bad_alloc`. -/
  | threw
  deriving DecidableEq, Repr

/-- A release of a resource to the operating system or the heap. -/
inductive Release where
  | CloseHandle (h : HANDLE)
  | deleteArray
  deriving DecidableEq, Repr

/-! ## The object and its surroundings -/

/-- The fields of `DCB` that `Open` assigns. -/
structure DCB where
  BaudRate : Nat
  Parity : Nat
  ByteSize : Nat
  StopBits : Nat
  fOutxCtsFlow : Bool
  fRtsControl : Nat
  fOutxDsrFlow : Bool
  fDtrControl : Nat
  fBinary : Bool
  fDsrSensitivity : Bool
  fTXContinueOnXoff : Bool
  fOutX : Bool
  fInX : Bool
  fErrorChar : Bool
  fNull : Bool
  fAbortOnError : Bool
  deriving DecidableEq, Repr

/-- The Win32 structure `COMMTIMEOUTS`. -/
structure COMMTIMEOUTS where
  ReadIntervalTimeout : Nat
  ReadTotalTimeoutMultiplier : Nat
  ReadTotalTimeoutConstant : Nat
  WriteTotalTimeoutMultiplier : Nat
  WriteTotalTimeoutConstant : Nat
  deriving DecidableEq, Repr

/-- The member fields of class `CSerialPort` (`SerialPort.h`).  `m_hEventArray` is the
three-entry array; `m_szWriteBuffer` is `none` for `NULL` and otherwise the contents of
the heap array it points to; `m_pOwner` is `none` for a `NULL` window.  The three
assignments `m_hEventArray[EVENT_SHUTDOWN]`, `[EVENT_READ]`, `[EVENT_WRITE]` of `Open`
determine every entry of the array. -/
structure CSerialPort where
  m_Thread : HANDLE
  m_hShutdownEvent : HANDLE
  m_hComm : HANDLE
  m_hWriteEvent : HANDLE
  m_hEventArray : List HANDLE
  m_ov_hEvent : HANDLE
  m_ov_Offset : Nat
  m_ov_OffsetHigh : Nat
  m_CommTimeouts : COMMTIMEOUTS
  m_dcb : DCB
  m_pOwner : Option Nat
  m_bThreadAlive : Bool
  m_nPortNr : Nat
  m_dwCommEvents : Nat
  m_nWriteBufferSize : Nat
  m_szWriteBuffer : Option (List BYTE)
  m_nWriteSize : Int
  deriving DecidableEq, Repr

/-- The serial device behind `m_hComm`, as far as the program drives or observes it. -/
structure Device where
  /-- Bytes queued for reading (`COMSTAT.cbInQue` is its length). -/
  rxQueue : List BYTE
  /-- The data of every `WriteFile` request, oldest first. -/
  written : List (List BYTE)
  /-- Number of `FlushFileBuffers` calls. -/
  flushes : Nat
  /-- The event mask installed by `SetCommMask`. -/
  commMask : Nat
  /-- The control block installed by `SetCommState`. -/
  dcb : DCB
  /-- The timeouts installed by `SetCommTimeouts`. -/
  timeouts : COMMTIMEOUTS
  /-- The queue sizes requested by `SetupComm`. -/
  queueSize : Nat
  deriving DecidableEq, Repr

/-- The object together with what it acts on. -/
structure World where
  port : CSerialPort
  /-- Ids of the kernel event objects that are signalled. -/
  signaled : List Nat
  device : Device
  /-- Messages posted to the owner, oldest first. -/
  posted : List MSG
  /-- Error dialogs shown (the `MessageBox` of `ProcessErrorMessage` and of the `default`
  branch of `CommThread`), oldest first. -/
  reported : List ErrorText
  /-- Resources released so far, oldest first. -/
  released : List Release
  /-- The results of `FormatMessage` (whether it returns more than 0) and of `LocalAlloc`
  (whether it returns non-`NULL`) for the coming calls of `ProcessErrorMessage`, in call
  order; calls beyond the list find both succeeding. -/
  formats : List (Bool × Bool)
  deriving DecidableEq, Repr

/-! ## `IsOpen`, `Write` -/

/-- Member function `CSerialPort::IsOpen`. -/
def IsOpen (p : CSerialPort) : Bool := p.m_hComm != HANDLE.INVALID_HANDLE_VALUE

/-- The call `memcpy(dest + off, src, n)` where `dest` is the staging buffer: the new contents of
the array, or `none` when the copy leaves the array or the source. -/
def memcpy (dest : Option (List BYTE)) (off : Int) (src : List BYTE) (n : Int) :
    Option (List BYTE) :=
  match dest with
  | none => none
  | some d =>
    if 0 ≤ off ∧ 0 ≤ n ∧ off + n ≤ d.length ∧ n ≤ src.length then
      some (d.take off.toNat ++ src.take n.toNat ++ d.drop (off.toNat + n.toNat))
    else none

/-- Member function `CSerialPort::Write( void *Buffer, int nSize )`.  `Buffer` is `none` for `NULL`,
otherwise the bytes it points to. -/
def Write (w : World) (Buffer : Option (List BYTE)) (nSize : Int) : World × Exit Unit :=
  if w.port.m_hComm = HANDLE.INVALID_HANDLE_VALUE then (w, Exit.assertFailed Assertion.commValid)
  else match Buffer with
  | none => (w, Exit.assertFailed Assertion.bufferNotNull)
  | some src =>
    if ¬ (nSize > 0) then (w, Exit.assertFailed Assertion.sizePositive)
    else if ¬ (toInt32 (w.port.m_nWriteSize + nSize) < toInt32 w.port.m_nWriteBufferSize) then
      (w, Exit.assertFailed Assertion.fitsBuffer)
    else match memcpy w.port.m_szWriteBuffer w.port.m_nWriteSize src nSize with
    | none => (w, Exit.fault)
    | some buf =>
      ({ w with
          port := { w.port with
            m_szWriteBuffer := some buf
            m_nWriteSize := toInt32 (w.port.m_nWriteSize + nSize) }
          signaled := SetEvent w.signaled w.port.m_hWriteEvent },
       Exit.ret ())

/-- The value `strlen` of the bytes at a `char *`: the index of the first NUL, or `none` when
there is no NUL in the object. -/
def strlen (src : List BYTE) : Option Nat :=
  let i := src.indexOf 0
  if i < src.length then some i else none

/-- Member function `CSerialPort::Write( char *Buffer )`.  `strlen( Buffer )` is evaluated before the
assertions, so a `NULL` argument is a fault; `strcpy` copies the characters and the
terminating NUL. -/
def WriteStr (w : World) (Buffer : Option (List BYTE)) : World × Exit Unit :=
  match Buffer with
  | none => (w, Exit.fault)
  | some src =>
    match strlen src with
    | none => (w, Exit.fault)
    | some len =>
      let nSize : Int := toInt32 len
      if w.port.m_hComm = HANDLE.INVALID_HANDLE_VALUE then
        (w, Exit.assertFailed Assertion.commValid)
      else if ¬ (nSize > 0) then (w, Exit.assertFailed Assertion.sizePositive)
      else if ¬ (toInt32 (w.port.m_nWriteSize + nSize) < toInt32 w.port.m_nWriteBufferSize) then
        (w, Exit.assertFailed Assertion.fitsBuffer)
      else match memcpy w.port.m_szWriteBuffer w.port.m_nWriteSize src (len + 1) with
      | none => (w, Exit.fault)
      | some buf =>
        ({ w with
            port := { w.port with
              m_szWriteBuffer := some buf
              m_nWriteSize := toInt32 (w.port.m_nWriteSize + nSize) }
            signaled := SetEvent w.signaled w.port.m_hWriteEvent },
         Exit.ret ())

/-! ## Constructor, `Close`, `Open` -/

/-- Member function `CSerialPort::CSerialPort()`.  The fields the constructor does not assign keep the
indeterminate values of the storage, given as `storage`. -/
def construct (storage : CSerialPort) : CSerialPort :=
  { storage with
    m_hComm := HANDLE.INVALID_HANDLE_VALUE
    m_ov_Offset := 0
    m_ov_OffsetHigh := 0
    m_ov_hEvent := HANDLE.NULL
    m_hWriteEvent := HANDLE.NULL
    m_hShutdownEvent := HANDLE.NULL
    m_szWriteBuffer := none
    m_bThreadAlive := false
    m_nWriteSize := 0
    m_Thread := HANDLE.NULL }

/-- The wait loop of `Close`:
`do { SetEvent( m_hShutdownEvent ); ::Sleep( 0 ); } while ( m_bThreadAlive );`.
The flag is cleared by the worker thread (branch `EVENT_SHUTDOWN` of `CommThread`);
`yields` is the number of iterations that still find it set.  A run in which the worker
never clears the flag does not leave the loop and has no result. -/
def closeWait : Nat → World → World
  | 0, w =>
    { w with
      signaled := SetEvent w.signaled w.port.m_hShutdownEvent
      port := { w.port with m_bThreadAlive := false } }
  | k + 1, w => closeWait k { w with signaled := SetEvent w.signaled w.port.m_hShutdownEvent }

/-- Step of `Close`: `if ( m_hShutdownEvent != NULL && m_bThreadAlive )` the wait loop. -/
def closeShutdownWait (yields : Nat) (w : World) : World :=
  if w.port.m_hShutdownEvent ≠ HANDLE.NULL ∧ w.port.m_bThreadAlive = true then
    closeWait yields w
  else w

/-- Step of `Close`: `if ( m_hComm != INVALID_HANDLE_VALUE )`, `CloseHandle( m_hComm )`. -/
def closeComm (w : World) : World :=
  if w.port.m_hComm ≠ HANDLE.INVALID_HANDLE_VALUE then
    { w with
      released := w.released ++ [Release.CloseHandle w.port.m_hComm]
      port := { w.port with m_hComm := HANDLE.INVALID_HANDLE_VALUE } }
  else w

/-- Step of `Close`: `if ( m_hShutdownEvent != NULL )`, `ResetEvent` and `NULL`. -/
def closeShutdownEvent (w : World) : World :=
  if w.port.m_hShutdownEvent ≠ HANDLE.NULL then
    { w with
      signaled := ResetEvent w.signaled w.port.m_hShutdownEvent
      port := { w.port with m_hShutdownEvent := HANDLE.NULL } }
  else w

/-- Step of `Close`: `if ( m_ov.hEvent != NULL )`, `ResetEvent` and `NULL`. -/
def closeOvEvent (w : World) : World :=
  if w.port.m_ov_hEvent ≠ HANDLE.NULL then
    { w with
      signaled := ResetEvent w.signaled w.port.m_ov_hEvent
      port := { w.port with m_ov_hEvent := HANDLE.NULL } }
  else w

/-- Step of `Close`: `if ( m_hWriteEvent != NULL )`, `ResetEvent` and `NULL`. -/
def closeWriteEvent (w : World) : World :=
  if w.port.m_hWriteEvent ≠ HANDLE.NULL then
    { w with
      signaled := ResetEvent w.signaled w.port.m_hWriteEvent
      port := { w.port with m_hWriteEvent := HANDLE.NULL } }
  else w

/-- Step of `Close`: `memset( m_hEventArray, 0, sizeof( m_hEventArray ) )`. -/
def closeEventArray (w : World) : World :=
  { w with port := { w.port with m_hEventArray := List.replicate EVENT_TYPE_MAX HANDLE.NULL } }

/-- Step of `Close`: `if ( m_szWriteBuffer != NULL )`, `delete []` and `NULL`. -/
def closeBuffer (w : World) : World :=
  if w.port.m_szWriteBuffer ≠ none then
    { w with
      released := w.released ++ [Release.deleteArray]
      port := { w.port with m_szWriteBuffer := none } }
  else w

/-- Step of `Close`: `if ( m_Thread != NULL )`, `CloseHandle( m_Thread )` and `NULL`. -/
def closeThread (w : World) : World :=
  if w.port.m_Thread ≠ HANDLE.NULL then
    { w with
      released := w.released ++ [Release.CloseHandle w.port.m_Thread]
      port := { w.port with m_Thread := HANDLE.NULL } }
  else w

/-- Member function `CSerialPort::Close`: its eight statements in order. -/
def Close (yields : Nat) (w : World) : World :=
  closeThread (closeBuffer (closeEventArray (closeWriteEvent (closeOvEvent
    (closeShutdownEvent (closeComm (closeShutdownWait yields w)))))))

/-- The arguments of `CSerialPort::Open`.  `pPortOwner` is `none` for `NULL`;
`nBufferSize` is a `UINT`. -/
structure OpenArgs where
  pPortOwner : Option Nat
  port : Nat
  baud : Nat
  parity : Nat
  databits : Nat
  stopbits : Nat
  dwCommEvents : Nat
  nBufferSize : Fin 4294967296
  ReadIntervalTimeout : Nat
  ReadTotalTimeoutMultiplier : Nat
  ReadTotalTimeoutConstant : Nat
  WriteTotalTimeoutMultiplier : Nat
  WriteTotalTimeoutConstant : Nat

/-- The results of the system calls made by one call of `Open`. -/
structure OpenEnv where
  /-- For the `Close` of a session that is still open. -/
  closeYields : Nat
  /-- Result of `CreateEvent` for `m_ov.hEvent`; `none` is `NULL`. -/
  ovEvent : Option Nat
  /-- Result of `CreateEvent` for `m_hWriteEvent`. -/
  writeEvent : Option Nat
  /-- Result of `CreateEvent` for `m_hShutdownEvent`. -/
  shutdownEvent : Option Nat
  /-- Whether `new char[nBufferSize]` succeeds; when it does not, it throws
  `std::bad_alloc`. -/
  allocated : Bool
  /-- The indeterminate initial contents of the new array. -/
  storage : List BYTE
  /-- Result of `CreateFile`; `none` is `INVALID_HANDLE_VALUE`. -/
  createFile : Option Nat
  setCommTimeouts : Bool
  setCommMask : Bool
  getCommState : Bool
  setCommState : Bool
  setupComm : Bool
  purgeComm : Bool
  /-- Result of `CreateThread`; `none` is `NULL`. -/
  createThread : Option Nat
  /-- For the `Close` at label `done` after a failure. -/
  doneYields : Nat

/-- A handle returned by a creating call whose failure value is `NULL`. -/
def handleOrNull : Option Nat → HANDLE
  | none => HANDLE.NULL
  | some id => HANDLE.obj id

/-- A handle returned by `CreateFile`. -/
def handleOrInvalid : Option Nat → HANDLE
  | none => HANDLE.INVALID_HANDLE_VALUE
  | some id => HANDLE.obj id

/-- The call `CreateEvent( NULL, TRUE, FALSE, NULL )`: a new event object is not signalled. -/
def CreateEvent (signaled : List Nat) (r : Option Nat) : List Nat :=
  ResetEvent signaled (handleOrNull r)

/-- The array `new char[n]` with indeterminate contents taken from `storage`. -/
def newArray (storage : List BYTE) (n : Nat) : List BYTE :=
  (List.range n).map (fun i => storage.getD i 0)

/-- Whether the coming call of `ProcessErrorMessage` reaches its `MessageBox`:
`FormatMessage( ... ) > 0` and the `LocalAlloc` for the text is not `NULL`. -/
def dialogShown : List (Bool × Bool) → Bool
  | [] => true
  | (formatted, allocated) :: _ => formatted && allocated

/-- Member function `CSerialPort::ProcessErrorMessage` with the text `t`: the dialog
naming `t` is shown only inside `if ( FormatMessage( ... ) > 0 )` and
`if ( Temp != NULL )`; otherwise the call shows nothing. -/
def ProcessErrorMessage (w : World) (t : ErrorText) : World :=
  { w with
    reported := if dialogShown w.formats then w.reported ++ [t] else w.reported
    formats := w.formats.tail }

/-- The calls of `ProcessErrorMessage` for the texts `ts`, in order. -/
def reportAll (w : World) (ts : List ErrorText) : World :=
  ts.foldl ProcessErrorMessage w

/-- Label `done` of `Open`: `if ( !ret ) Close();` and `return ret`. -/
def OpenDone (env : OpenEnv) (ret : Bool) (w : World) : World × Exit Bool :=
  (if ret then w else Close env.doneYields w, Exit.ret ret)

/-- Step of `Open`: `m_pOwner = pPortOwner;` and `if ( IsOpen() ) Close();`. -/
def openBegin (env : OpenEnv) (a : OpenArgs) (w : World) : World :=
  if IsOpen w.port then
    Close env.closeYields { w with port := { w.port with m_pOwner := a.pPortOwner } }
  else { w with port := { w.port with m_pOwner := a.pPortOwner } }

/-- Step of `Open`: `m_ov.hEvent = CreateEvent( NULL, TRUE, FALSE, NULL );`. -/
def openOvEvent (env : OpenEnv) (w : World) : World :=
  { w with
    signaled := CreateEvent w.signaled env.ovEvent
    port := { w.port with m_ov_hEvent := handleOrNull env.ovEvent } }

/-- Step of `Open`: `m_hWriteEvent = CreateEvent( NULL, TRUE, FALSE, NULL );`. -/
def openWriteEvent (env : OpenEnv) (w : World) : World :=
  { w with
    signaled := CreateEvent w.signaled env.writeEvent
    port := { w.port with m_hWriteEvent := handleOrNull env.writeEvent } }

/-- Step of `Open`: `m_hShutdownEvent = CreateEvent( NULL, TRUE, FALSE, NULL );`. -/
def openShutdownEvent (env : OpenEnv) (w : World) : World :=
  { w with
    signaled := CreateEvent w.signaled env.shutdownEvent
    port := { w.port with m_hShutdownEvent := handleOrNull env.shutdownEvent } }

/-- Step of `Open`: the three assignments to `m_hEventArray`. -/
def openEventArray (w : World) : World :=
  { w with port := { w.port with
      m_hEventArray := [w.port.m_hShutdownEvent, w.port.m_ov_hEvent, w.port.m_hWriteEvent] } }

/-- Step of `Open`: `m_szWriteBuffer = new char[nBufferSize];` when the allocation
succeeds.  A failed allocation does not reach the assignment: `new` throws. -/
def openAllocate (env : OpenEnv) (a : OpenArgs) (w : World) : World :=
  { w with port := { w.port with
      m_szWriteBuffer := some (newArray env.storage a.nBufferSize.val) } }

/-- Step of `Open`: `m_nPortNr = port; m_nWriteBufferSize = nBufferSize;
m_dwCommEvents = dwCommEvents;` and `m_hComm = CreateFile( ... );`. -/
def openCreateFile (env : OpenEnv) (a : OpenArgs) (w : World) : World :=
  { w with port := { w.port with
      m_nPortNr := a.port
      m_nWriteBufferSize := a.nBufferSize.val
      m_dwCommEvents := a.dwCommEvents
      m_hComm := handleOrInvalid env.createFile } }

/-- Step of `Open`: the five assignments to `m_CommTimeouts`. -/
def openTimeouts (a : OpenArgs) (w : World) : World :=
  { w with port := { w.port with m_CommTimeouts :=
      { ReadIntervalTimeout := a.ReadIntervalTimeout
        ReadTotalTimeoutMultiplier := a.ReadTotalTimeoutMultiplier
        ReadTotalTimeoutConstant := a.ReadTotalTimeoutConstant
        WriteTotalTimeoutMultiplier := a.WriteTotalTimeoutMultiplier
        WriteTotalTimeoutConstant := a.WriteTotalTimeoutConstant } } }

/-- Step of `Open`: a successful `SetCommTimeouts( m_hComm, &m_CommTimeouts )`. -/
def openSetCommTimeouts (w : World) : World :=
  { w with device := { w.device with timeouts := w.port.m_CommTimeouts } }

/-- Step of `Open`: a successful `SetCommMask( m_hComm, dwCommEvents )`. -/
def openSetCommMask (a : OpenArgs) (w : World) : World :=
  { w with device := { w.device with commMask := a.dwCommEvents } }

/-- Step of `Open`: a successful `GetCommState( m_hComm, &m_dcb )` and the sixteen assignments
to `m_dcb` (`RTS_CONTROL_DISABLE` and `DTR_CONTROL_DISABLE` are 0). -/
def openGetCommState (a : OpenArgs) (w : World) : World :=
  { w with port := { w.port with m_dcb :=
      { w.device.dcb with
        BaudRate := a.baud
        Parity := a.parity
        ByteSize := a.databits
        StopBits := a.stopbits
        fOutxCtsFlow := false
        fRtsControl := 0
        fOutxDsrFlow := false
        fDtrControl := 0
        fBinary := true
        fDsrSensitivity := false
        fTXContinueOnXoff := false
        fOutX := false
        fInX := false
        fErrorChar := false
        fNull := false
        fAbortOnError := false } } }

/-- Step of `Open`: a successful `SetCommState( m_hComm, &m_dcb )`. -/
def openSetCommState (w : World) : World :=
  { w with device := { w.device with dcb := w.port.m_dcb } }

/-- Step of `Open`: a successful `SetupComm( m_hComm, m_nWriteBufferSize, m_nWriteBufferSize )`. -/
def openSetupComm (w : World) : World :=
  { w with device := { w.device with queueSize := w.port.m_nWriteBufferSize } }

/-- Step of `Open`: a successful `PurgeComm` with `PURGE_RXCLEAR | PURGE_TXCLEAR |
PURGE_RXABORT | PURGE_TXABORT`. -/
def openPurgeComm (w : World) : World :=
  { w with device := { w.device with rxQueue := [] } }

/-- Step of `Open`: `m_Thread = ::CreateThread( NULL, 0, CommThread, this, 0, NULL )`. -/
def openCreateThread (env : OpenEnv) (w : World) : World :=
  { w with port := { w.port with m_Thread := handleOrNull env.createThread } }

/-- Member function `CSerialPort::Open`, from `assert( m_Thread == NULL )` on. -/
def OpenThread (env : OpenEnv) (w : World) : World × Exit Bool :=
  if w.port.m_Thread ≠ HANDLE.NULL then (w, Exit.assertFailed Assertion.threadIsNull)
  else if (openCreateThread env w).port.m_Thread = HANDLE.NULL then
    OpenDone env false (ProcessErrorMessage (openCreateThread env w) ErrorText.CreateThread)
  else OpenDone env true (openCreateThread env w)

/-- Member function `CSerialPort::Open`, the configuration of the opened device: `SetCommTimeouts`,
`SetCommMask`, `GetCommState`, `SetCommState`, `SetupComm`, `PurgeComm`. -/
def OpenConfigure (env : OpenEnv) (a : OpenArgs) (w : World) : World × Exit Bool :=
  if env.setCommTimeouts then
    if env.setCommMask then
      if env.getCommState then
        if env.setCommState then
          if env.setupComm then
            if env.purgeComm then
              OpenThread env (openPurgeComm (openSetupComm (openSetCommState
                (openGetCommState a (openSetCommMask a (openSetCommTimeouts w))))))
            else
              OpenDone env false (ProcessErrorMessage (openSetupComm (openSetCommState
                (openGetCommState a (openSetCommMask a (openSetCommTimeouts w)))))
                ErrorText.PurgeComm)
          else
            OpenDone env false (ProcessErrorMessage (openSetCommState
              (openGetCommState a (openSetCommMask a (openSetCommTimeouts w))))
              ErrorText.SetupComm)
        else
          OpenDone env false (ProcessErrorMessage
            (openGetCommState a (openSetCommMask a (openSetCommTimeouts w)))
            ErrorText.SetCommState)
      else
        OpenDone env false (ProcessErrorMessage (openSetCommMask a (openSetCommTimeouts w))
          ErrorText.GetCommState)
    else OpenDone env false (ProcessErrorMessage (openSetCommTimeouts w) ErrorText.SetCommMask)
  else OpenDone env false (ProcessErrorMessage w ErrorText.SetCommTimeouts)

/-- Member function `CSerialPort::Open`, from `// create events` to `CreateFile`.  A failed
`new char[nBufferSize]` throws, so the exception leaves `Open` with the three events
created and the event array assigned, without reaching label `done`; the test
`m_szWriteBuffer == NULL` that follows the allocation is kept as in the source. -/
def OpenCreate (env : OpenEnv) (a : OpenArgs) (w : World) : World × Exit Bool :=
  if (openOvEvent env w).port.m_ov_hEvent = HANDLE.NULL then
    OpenDone env false (openOvEvent env w)
  else if (openWriteEvent env (openOvEvent env w)).port.m_hWriteEvent = HANDLE.NULL then
    OpenDone env false (openWriteEvent env (openOvEvent env w))
  else if (openShutdownEvent env (openWriteEvent env (openOvEvent env w))).port.m_hShutdownEvent
      = HANDLE.NULL then
    OpenDone env false (openShutdownEvent env (openWriteEvent env (openOvEvent env w)))
  else if env.allocated = false then
    (openEventArray (openShutdownEvent env (openWriteEvent env (openOvEvent env w))),
     Exit.threw)
  else if (openAllocate env a (openEventArray (openShutdownEvent env (openWriteEvent env
      (openOvEvent env w))))).port.m_szWriteBuffer = none then
    OpenDone env false (openAllocate env a
      (openEventArray (openShutdownEvent env (openWriteEvent env (openOvEvent env w)))))
  else if (openCreateFile env a (openAllocate env a (openEventArray (openShutdownEvent env
      (openWriteEvent env (openOvEvent env w)))))).port.m_hComm
      = HANDLE.INVALID_HANDLE_VALUE then
    OpenDone env false (openCreateFile env a (openAllocate env a
      (openEventArray (openShutdownEvent env (openWriteEvent env (openOvEvent env w))))))
  else
    OpenConfigure env a (openTimeouts a (openCreateFile env a (openAllocate env a
      (openEventArray (openShutdownEvent env (openWriteEvent env (openOvEvent env w)))))))

/-- Member function `CSerialPort::Open`: the two assertions on the arguments, the `Close` of a session
that is still open, then the steps up to label `done`. -/
def Open (env : OpenEnv) (a : OpenArgs) (w : World) : World × Exit Bool :=
  if ¬ (a.port ≤ SERIAL_PORT_MAX) then (w, Exit.assertFailed Assertion.portInRange)
  else if a.pPortOwner = none then (w, Exit.assertFailed Assertion.ownerNotNull)
  else OpenCreate env a (openBegin env a w)

/-! ## The worker: `WriteChar`, `ReceiveChar`, `CommThread` -/

/-- What the device answers to the `WriteFile` of `WriteChar`. -/
inductive WriteOutcome where
  /-- The call `WriteFile` returned `TRUE` and stored `a` in `BytesSentA`. -/
  | done (a : Nat)
  /-- The call `WriteFile` returned `FALSE` with `ERROR_IO_PENDING` and `BytesSentA = a`; then
  `GetOverlappedResult` returned `ok` and stored `b` in `BytesSentB`. -/
  | pending (a : Nat) (ok : Bool) (b : Nat)
  /-- The call `WriteFile` returned `FALSE` with another error and `BytesSentA = a`. -/
  | error (a : Nat)
  deriving DecidableEq, Repr

/-- The value of `BytesSentA` after the write phase. -/
def WriteOutcome.sentA : WriteOutcome → Nat
  | .done a => a
  | .pending a _ _ => a
  | .error a => a

/-- The value of `BytesSentB` after the write phase (`0` when `GetOverlappedResult` is not called). -/
def WriteOutcome.sentB : WriteOutcome → Nat
  | .pending _ _ b => b
  | _ => 0

/-- The texts handed to `ProcessErrorMessage` by the write phase for an outcome. -/
def WriteOutcome.errors : WriteOutcome → List ErrorText
  | .done _ => []
  | .pending _ ok _ => if ok then [] else [ErrorText.GetOverlappedResult_in_WriteFile]
  | .error _ => [ErrorText.WriteFile]

/-- Member function `CSerialPort::WriteChar`; the value returned is `BytesSentA + BytesSentB`. -/
def WriteChar (out : WriteOutcome) (w : World) : World × Exit Nat :=
  let w1 := { w with
    signaled := ResetEvent w.signaled w.port.m_hWriteEvent
    port := { w.port with m_ov_Offset := 0, m_ov_OffsetHigh := 0 } }
  let w2 := reportAll
    { w1 with device := { w1.device with written := w1.device.written ++
        [(w1.port.m_szWriteBuffer.getD []).take (toDWORD w1.port.m_nWriteSize)] } }
    out.errors
  let w3 :=
    if w2.port.m_nWriteSize = 1 then
      { w2 with device := { w2.device with flushes := w2.device.flushes + 1 } }
    else w2
  let sent := (out.sentA + out.sentB) % 4294967296
  if sent ≠ toDWORD w3.port.m_nWriteSize then (w3, Exit.assertFailed Assertion.bytesSentMatch)
  else ({ w3 with port := { w3.port with m_nWriteSize := 0 } }, Exit.ret sent)

/-- What the device answers to one `ReadFile` of one byte in `ReceiveChar`. -/
inductive ReadOutcome where
  /-- The call `ReadFile` returned `TRUE`; `got` tells whether `BytesRead` is 1 (else 0). -/
  | done (got : Bool)
  /-- The call `ReadFile` returned `FALSE` with `ERROR_IO_PENDING`; then `GetOverlappedResult`
  returned `ok`, and `got` tells whether `BytesRead` is 1. -/
  | pending (ok : Bool) (got : Bool)
  /-- The call `ReadFile` returned `FALSE` with another error. -/
  | error
  deriving DecidableEq, Repr

/-- The final `bResult` of one pass of the read loop. -/
def ReadOutcome.bResult : ReadOutcome → Bool
  | .done _ => true
  | .pending ok _ => ok
  | .error => false

/-- Whether a byte was transferred into `RXBuff`. -/
def ReadOutcome.got : ReadOutcome → Bool
  | .done g => g
  | .pending _ g => g
  | .error => false

/-- The texts handed to `ProcessErrorMessage` by one pass of the read loop. -/
def ReadOutcome.errors : ReadOutcome → List ErrorText
  | .done _ => []
  | .pending ok _ => if ok then [] else [ErrorText.GetOverlappedResult_in_ReadFile]
  | .error => [ErrorText.ReadFile]

/-- Member function `CSerialPort::ReceiveChar`: the loop `while ( pPort->m_bThreadAlive )`, at most
`fuel` passes; `reads i` is the device's answer to the `ReadFile` of pass `i`.  The
result is `none` when the loop has not ended after `fuel` passes. -/
def ReceiveCharLoop (reads : Nat → ReadOutcome) : Nat → Nat → World → Option World
  | 0, _, _ => none
  | fuel + 1, i, w =>
    if w.port.m_bThreadAlive = false then some w
    else if isSignaled w.signaled w.port.m_hShutdownEvent then some w
    else
      match w.device.rxQueue with
      | [] => some w
      | b :: rest =>
        let o := reads i
        let w1 := reportAll w o.errors
        let w2 := if o.got then { w1 with device := { w1.device with rxQueue := rest } } else w1
        let w3 :=
          if o.bResult && o.got then
            { w2 with posted := w2.posted ++ [{ wParam := b.val, lParam := EV_RXCHAR }] }
          else w2
        ReceiveCharLoop reads fuel (i + 1) w3

/-- Member function `CSerialPort::ReceiveChar` with a bound on the number of passes of its loop. -/
def ReceiveChar (reads : Nat → ReadOutcome) (fuel : Nat) (w : World) : Option World :=
  ReceiveCharLoop reads fuel 0 w

/-- What `WaitCommEvent` answers at the top of the worker loop. -/
inductive WaitCommResult where
  /-- It returned `TRUE`. -/
  | completed
  /-- It returned `FALSE` with `ERROR_IO_PENDING`. -/
  | pending
  /-- It returned `FALSE` with `ERROR_INVALID_PARAMETER`. -/
  | invalidParameter
  /-- It returned `FALSE` with another error. -/
  | error
  deriving DecidableEq, Repr

/-- The value of `WaitForMultipleObjects( EVENT_TYPE_MAX, m_hEventArray, FALSE, INFINITE )`. -/
inductive WaitResult where
  /-- The value `WAIT_OBJECT_0 + i`: entry `i` is the first signalled entry of the array. -/
  | object (i : Nat)
  /-- No entry is signalled: the thread stays in the call. -/
  | blocked
  /-- The value `WAIT_FAILED`: an entry of the array is not an object. -/
  | failed
  deriving DecidableEq, Repr

/-- Whether a handle denotes a kernel object. -/
def HANDLE.isObj : HANDLE → Bool
  | .obj _ => true
  | _ => false

/-- The call `WaitForMultipleObjects` with `bWaitAll = FALSE`: the smallest index of a signalled
entry. -/
def WaitForMultipleObjects (handles : List HANDLE) (signaled : List Nat) : WaitResult :=
  if handles.all HANDLE.isObj then
    match handles.findIdx? (isSignaled signaled) with
    | some i => WaitResult.object i
    | none => WaitResult.blocked
  else WaitResult.failed

/-- What the surroundings contribute to one pass of the loop of `CommThread`. -/
structure IterEnv where
  waitCommEvent : WaitCommResult
  /-- Whether the kernel has `m_ov.hEvent` signalled when the worker waits. -/
  ovSignaled : Bool
  reads : Nat → ReadOutcome
  readFuel : Nat
  write : WriteOutcome

/-- How one pass of the loop of `CommThread` ends. -/
inductive Control where
  /-- Back to the loop test `while ( pPort->m_bThreadAlive )`. -/
  | again
  /-- The call `::ExitThread( 0 )`. -/
  | exited
  /-- The thread stays in `WaitForMultipleObjects`. -/
  | blocked
  /-- An `assert` aborted the program. -/
  | aborted (a : Assertion)
  /-- The call `ReceiveChar` has not ended within `readFuel` passes. -/
  | reading
  deriving DecidableEq, Repr

/-- Complement `~x` on a `DWORD`. -/
def notDWORD (x : Nat) : Nat := 4294967295 ^^^ x

/-- The `switch ( Event )` of `CommThread` after `WaitForMultipleObjects`. -/
def CommThreadDispatch (env : IterEnv) (w : World) : World × Control :=
  match WaitForMultipleObjects w.port.m_hEventArray w.signaled with
  | WaitResult.blocked => (w, Control.blocked)
  | WaitResult.object 0 =>
    ({ w with port := { w.port with m_bThreadAlive := false } }, Control.exited)
  | WaitResult.object 1 =>
    let CommEvent := w.device.commMask
    let r := if CommEvent &&& EV_RXCHAR ≠ 0 then ReceiveChar env.reads env.readFuel w else some w
    match r with
    | none => (w, Control.reading)
    | some w1 =>
      if CommEvent &&&
          (EV_CTS ||| EV_DSR ||| EV_RLSD ||| EV_RXFLAG ||| EV_BREAK ||| EV_ERR ||| EV_RING) ≠ 0 then
        ({ w1 with posted := w1.posted ++
            [{ wParam := 0,
               lParam := (CommEvent &&& notDWORD EV_RXCHAR) &&& notDWORD EV_TXEMPTY }] },
         Control.again)
      else (w1, Control.again)
  | WaitResult.object 2 =>
    match WriteChar env.write w with
    | (w1, Exit.ret BytesSent) =>
      ({ w1 with posted := w1.posted ++ [{ wParam := BytesSent, lParam := EV_TXEMPTY }] },
       Control.again)
    | (w1, Exit.assertFailed a) => (w1, Control.aborted a)
    | (w1, Exit.fault) => (w1, Control.again) -- not taken: `WriteChar` has no such exit
    | (w1, Exit.threw) => (w1, Control.again) -- not taken: `WriteChar` has no such exit
  | _ => ({ w with reported := w.reported ++ [ErrorText.unexpectedEvent] }, Control.again)

/-- The state of `m_ov.hEvent` is driven by the kernel (completion of the overlapped
operation on `m_ov`): when the worker reaches `WaitForMultipleObjects` the event is
signalled or not as `env.ovSignaled` tells. -/
def kernelOvEvent (env : IterEnv) (w : World) : World :=
  { w with signaled :=
      if env.ovSignaled then SetEvent w.signaled w.port.m_ov_hEvent
      else ResetEvent w.signaled w.port.m_ov_hEvent }

/-- One pass of the body of `while ( pPort->m_bThreadAlive )` in `CommThread`:
`WaitCommEvent`, the check of `comstat.cbInQue` after a `TRUE` result, then the wait
and the `switch`. -/
def CommThreadIter (env : IterEnv) (w : World) : World × Control :=
  match env.waitCommEvent with
  | WaitCommResult.completed =>
    if w.device.rxQueue.length = 0 then (w, Control.again)
    else CommThreadDispatch env (kernelOvEvent env w)
  | WaitCommResult.pending => CommThreadDispatch env (kernelOvEvent env w)
  | WaitCommResult.invalidParameter => CommThreadDispatch env (kernelOvEvent env w)
  | WaitCommResult.error =>
    CommThreadDispatch env (kernelOvEvent env (ProcessErrorMessage w ErrorText.WaitCommEvent))

/-- The loop of `CommThread` over the passes described by `envs`, until a pass does not
return to the loop test, the flag `m_bThreadAlive` is clear, or `envs` is used up. -/
def CommThreadLoop : List IterEnv → World → World × Control
  | [], w => (w, Control.again)
  | env :: envs, w =>
    if w.port.m_bThreadAlive = false then (w, Control.exited)
    else
      match CommThreadIter env w with
      | (w1, Control.again) => CommThreadLoop envs w1
      | r => r

/-- Member function `CSerialPort::CommThread`: `pPort->m_bThreadAlive = TRUE`, then the loop. -/
def CommThread (envs : List IterEnv) (w : World) : World × Control :=
  CommThreadLoop envs { w with port := { w.port with m_bThreadAlive := true } }

/-! ## Sessions and runs used in the statements -/

/-- The session is open: the port has a device handle, a write event, a staging array of
`m_nWriteBufferSize` bytes, and the staged length `m_nWriteSize` is a non-negative `int`;
`m_nWriteBufferSize` is a `DWORD`. -/
def OpenSession (w : World) : Prop :=
  w.port.m_hComm ≠ HANDLE.INVALID_HANDLE_VALUE ∧
  w.port.m_hWriteEvent.isObj = true ∧
  w.port.m_szWriteBuffer.map List.length = some w.port.m_nWriteBufferSize ∧
  0 ≤ w.port.m_nWriteSize ∧ w.port.m_nWriteSize < 2147483648 ∧
  w.port.m_nWriteBufferSize < 4294967296

instance (w : World) : Decidable (OpenSession w) := by
  unfold OpenSession
  infer_instance

/-- The staged bytes: the first `m_nWriteSize` bytes of the staging array. -/
def staged (p : CSerialPort) : List BYTE :=
  (p.m_szWriteBuffer.getD []).take p.m_nWriteSize.toNat

/-- A sequence of calls `Write( Buffer, nSize )`, one per payload with `nSize` its
length, up to the first call that does not return. -/
def WriteAll : List (List BYTE) → World → World × Exit Unit
  | [], w => (w, Exit.ret ())
  | p :: ps, w =>
    match Write w (some p) p.length with
    | (w1, Exit.ret _) => WriteAll ps w1
    | r => r

/-- A value of type `int`. -/
def isInt32 (z : Int) : Prop := -2147483648 ≤ z ∧ z < 2147483648

/-- The states of a session: the result of a successful `Open` with buffer size `cap`
on a state satisfying `P`, followed by accepted `Write` calls (with `nSize` a value of
type `int`) and completed write cycles of the worker in any order. -/
inductive Reachable (P : World → Prop) (cap : Nat) : World → Prop where
  | opened (env : OpenEnv) (a : OpenArgs) (w : World) :
      P w → a.nBufferSize.val = cap → (Open env a w).2 = Exit.ret true →
      Reachable P cap (Open env a w).1
  | write (w : World) (Buffer : Option (List BYTE)) (nSize : Int) :
      Reachable P cap w → isInt32 nSize → (Write w Buffer nSize).2 = Exit.ret () →
      Reachable P cap (Write w Buffer nSize).1
  | writeChar (w : World) (out : WriteOutcome) (n : Nat) :
      Reachable P cap w → (WriteChar out w).2 = Exit.ret n →
      Reachable P cap (WriteChar out w).1

/-- The unopened sentinels of the handles, the event array and the staging buffer. -/
def Unopened (p : CSerialPort) : Prop :=
  IsOpen p = false ∧
  p.m_hComm = HANDLE.INVALID_HANDLE_VALUE ∧
  p.m_hShutdownEvent = HANDLE.NULL ∧
  p.m_ov_hEvent = HANDLE.NULL ∧
  p.m_hWriteEvent = HANDLE.NULL ∧
  p.m_hEventArray = [HANDLE.NULL, HANDLE.NULL, HANDLE.NULL] ∧
  p.m_szWriteBuffer = none ∧
  p.m_Thread = HANDLE.NULL

/-- Some step of `Open` fails: one of the creating, allocating or configuring calls
returns its failure value. -/
def OpenEnv.stepFails (env : OpenEnv) : Prop :=
  env.ovEvent = none ∨ env.writeEvent = none ∨ env.shutdownEvent = none ∨
  env.allocated = false ∨ env.createFile = none ∨ env.setCommTimeouts = false ∨
  env.setCommMask = false ∨ env.getCommState = false ∨ env.setCommState = false ∨
  env.setupComm = false ∨ env.purgeComm = false ∨ env.createThread = none

/-! ## Concrete sessions for the examples -/

/-- Some storage for a port object before its constructor runs. -/
def rawStorage : CSerialPort :=
  { m_Thread := HANDLE.obj 77
    m_hShutdownEvent := HANDLE.obj 78
    m_hComm := HANDLE.NULL
    m_hWriteEvent := HANDLE.INVALID_HANDLE_VALUE
    m_hEventArray := [HANDLE.obj 5]
    m_ov_hEvent := HANDLE.obj 79
    m_ov_Offset := 12
    m_ov_OffsetHigh := 13
    m_CommTimeouts :=
      { ReadIntervalTimeout := 0, ReadTotalTimeoutMultiplier := 0, ReadTotalTimeoutConstant := 0,
        WriteTotalTimeoutMultiplier := 0, WriteTotalTimeoutConstant := 0 }
    m_dcb :=
      { BaudRate := 0, Parity := 0, ByteSize := 0, StopBits := 0, fOutxCtsFlow := true,
        fRtsControl := 1, fOutxDsrFlow := true, fDtrControl := 1, fBinary := false,
        fDsrSensitivity := true, fTXContinueOnXoff := true, fOutX := true, fInX := true,
        fErrorChar := true, fNull := true, fAbortOnError := true }
    m_pOwner := none
    m_bThreadAlive := true
    m_nPortNr := 0
    m_dwCommEvents := 0
    m_nWriteBufferSize := 9
    m_szWriteBuffer := some [1, 2]
    m_nWriteSize := 5 }

/-- A world with a freshly constructed port and an idle device. -/
def freshWorld : World :=
  { port := construct rawStorage
    signaled := []
    device :=
      { rxQueue := [], written := [], flushes := 0, commMask := 0, dcb := rawStorage.m_dcb,
        timeouts := rawStorage.m_CommTimeouts, queueSize := 0 }
    posted := []
    reported := []
    released := []
    formats := [] }

/-- The arguments `Open( owner, 5, 9600, NOPARITY, 8, ONESTOPBIT, EV_RXCHAR, n )` with
the default timeouts of `SerialPort.h`. -/
def openArgs (n : Fin 4294967296) : OpenArgs :=
  { pPortOwner := some 1, port := 5, baud := 9600, parity := 0, databits := 8, stopbits := 0,
    dwCommEvents := EV_RXCHAR, nBufferSize := n, ReadIntervalTimeout := 1000,
    ReadTotalTimeoutMultiplier := 1, ReadTotalTimeoutConstant := 50,
    WriteTotalTimeoutMultiplier := 100, WriteTotalTimeoutConstant := 1000 }

/-- System calls of an `Open` in which every step succeeds. -/
def okEnv : OpenEnv :=
  { closeYields := 0, ovEvent := some 1, writeEvent := some 2, shutdownEvent := some 3,
    allocated := true, storage := [], createFile := some 10, setCommTimeouts := true,
    setCommMask := true, getCommState := true, setCommState := true, setupComm := true,
    purgeComm := true, createThread := some 20, doneYields := 0 }

/-- A freshly constructed port after a successful `Open` with buffer size `n`. -/
def openedWorld (n : Fin 4294967296) : World := (Open okEnv (openArgs n) freshWorld).1

/-- The bytes of "PING". -/
def PING : List BYTE := [80, 73, 78, 71]

/-- The bytes of "PONG". -/
def PONG : List BYTE := [80, 79, 78, 71]

/-- A session with capacity 64 and one byte staged. -/
def oneStaged : World := (Write (openedWorld 64) (some [65]) 1).1

/-- System calls of an `Open` in which `SetCommState` fails. -/
def failEnv : OpenEnv := { okEnv with setCommState := false }

/-- A session with capacity 64 whose worker has started and in which "PING" has been
staged by `Write` but not yet sent. -/
def pingStaged : World := (Write (CommThread [] (openedWorld 64)).1 (some PING) 4).1

/-- The port of `pingStaged` after `Close` and a second, successful `Open` with the same
arguments and the same results of the system calls. -/
def reopened : World := (Open okEnv (openArgs 64) (Close 0 pingStaged)).1

/-- The invariant of a session with capacity `cap`: the array has `cap` bytes, and the
staged length is in `[0, cap)` and is 0 when `cap` does not fit an `int`. -/
def SessionInv (cap : Nat) (w : World) : Prop :=
  w.port.m_nWriteBufferSize = cap ∧ cap < 4294967296 ∧
  w.port.m_szWriteBuffer.map List.length = some cap ∧
  0 ≤ w.port.m_nWriteSize ∧ w.port.m_nWriteSize < cap ∧
  (2147483648 ≤ cap → w.port.m_nWriteSize = 0)

/-- The device write completes having transferred `L` bytes in total: `WriteFile`
succeeds at once with `L` bytes, or is pending and `GetOverlappedResult` succeeds with
the two counts adding up to `L`. -/
def WriteOutcome.completes : WriteOutcome → Nat → Prop
  | .done a, L => a = L
  | .pending a true b, L => a + b = L
  | _, _ => False

/-- The worker of a session with capacity 64 has started and "PONG" is queued at the
device. -/
def pongQueued : World :=
  { (CommThread [] (openedWorld 64)).1 with
    device := { (openedWorld 64).device with rxQueue := PONG } }

/-- The surroundings of a pass of the worker loop in which `WaitCommEvent` is pending,
`m_ov.hEvent` is signalled or not as `ov` tells, and every read and write succeeds at
once. -/
def calmEnv (ov : Bool) (sent : Nat) : IterEnv :=
  { waitCommEvent := WaitCommResult.pending, ovSignaled := ov,
    reads := fun _ => ReadOutcome.done true, readFuel := 100,
    write := WriteOutcome.done sent }

/-- The session `pingStaged` after `SetEvent( m_hShutdownEvent )`, with "PONG" queued at
the device: all of Shutdown, ReadReady and WriteReady are signalled when the worker
waits. -/
def allSignaled : World :=
  { pingStaged with
    signaled := SetEvent pingStaged.signaled pingStaged.port.m_hShutdownEvent
    device := { pingStaged.device with rxQueue := PONG } }

/-- A started session with capacity 64 in which only the read event is signalled, the
event mask of the device is `mask` and `queue` is queued for reading. -/
def readReady (mask : Nat) (queue : List BYTE) : World :=
  { (CommThread [] (openedWorld 64)).1 with
    signaled := [1]
    device := { (openedWorld 64).device with commMask := mask, rxQueue := queue } }

/-- A pass of the worker loop in which `WriteFile` fails with an error that is not
`ERROR_IO_PENDING` and transfers nothing; everything else as in `calmEnv false 0`. -/
def failedWriteEnv : IterEnv :=
  { calmEnv false 0 with write := WriteOutcome.error 0 }

/-- A pass of the worker loop in which `WaitCommEvent` fails with another error, the
first `ReadFile` fails with an error that is not `ERROR_IO_PENDING`, the later ones
succeed, and `WriteFile` fails without transferring a byte. -/
def stormEnv : IterEnv :=
  { waitCommEvent := WaitCommResult.error, ovSignaled := false,
    reads := fun i => if i = 0 then ReadOutcome.error else ReadOutcome.done true,
    readFuel := 100, write := WriteOutcome.error 0 }

/-- The session `pingStaged` with "PONG" queued at the device: the write event is
signalled, the shutdown and read events are not. -/
def pingStagedPongQueued : World :=
  { pingStaged with device := { pingStaged.device with rxQueue := PONG } }

/-- The C string "PING": its four characters and the terminating NUL. -/
def PINGZ : List BYTE := [80, 73, 78, 71, 0]

/-- System calls of an `Open` in which the three events are created and
`new char[nBufferSize]` fails. -/
def allocFailEnv : OpenEnv := { okEnv with allocated := false }

theorem toInt32_of_range (z : Int) (h0 : -2147483648 ≤ z) (h1 : z < 2147483648) :
    toInt32 z = z := by
  unfold toInt32
  omega

theorem toDWORD_of_range (z : Int) (h0 : 0 ≤ z) (h1 : z < 4294967296) :
    (toDWORD z : Int) = z := by
  unfold toDWORD
  omega

theorem isSignaled_SetEvent (s : List Nat) (h : HANDLE) (hobj : h.isObj = true) :
    isSignaled (SetEvent s h) h = true := by
  cases h with
  | obj e =>
    by_cases he : e ∈ s <;> simp [SetEvent, isSignaled, he]
  | NULL => simp [HANDLE.isObj] at hobj
  | INVALID_HANDLE_VALUE => simp [HANDLE.isObj] at hobj

theorem isSignaled_ResetEvent (s : List Nat) (h : HANDLE) :
    isSignaled (ResetEvent s h) h = false := by
  cases h <;> simp [ResetEvent, isSignaled]

theorem ProcessErrorMessage_frame (w : World) (t : ErrorText) :
    (ProcessErrorMessage w t).port = w.port ∧ (ProcessErrorMessage w t).signaled = w.signaled ∧
    (ProcessErrorMessage w t).device = w.device ∧ (ProcessErrorMessage w t).posted = w.posted ∧
    (ProcessErrorMessage w t).released = w.released :=
  ⟨rfl, rfl, rfl, rfl, rfl⟩

theorem reportAll_frame (ts : List ErrorText) : ∀ w : World,
    (reportAll w ts).port = w.port ∧ (reportAll w ts).signaled = w.signaled ∧
    (reportAll w ts).device = w.device ∧ (reportAll w ts).posted = w.posted ∧
    (reportAll w ts).released = w.released := by
  induction ts with
  | nil => intro w; exact ⟨rfl, rfl, rfl, rfl, rfl⟩
  | cons t ts ih =>
    intro w
    obtain ⟨h1, h2, h3, h4, h5⟩ := ih (ProcessErrorMessage w t)
    exact ⟨h1, h2, h3, h4, h5⟩

@[simp] theorem reportAll_port (w : World) (ts : List ErrorText) :
    (reportAll w ts).port = w.port := (reportAll_frame ts w).1

@[simp] theorem reportAll_signaled (w : World) (ts : List ErrorText) :
    (reportAll w ts).signaled = w.signaled := (reportAll_frame ts w).2.1

@[simp] theorem reportAll_device (w : World) (ts : List ErrorText) :
    (reportAll w ts).device = w.device := (reportAll_frame ts w).2.2.1

@[simp] theorem reportAll_posted (w : World) (ts : List ErrorText) :
    (reportAll w ts).posted = w.posted := (reportAll_frame ts w).2.2.2.1

@[simp] theorem reportAll_released (w : World) (ts : List ErrorText) :
    (reportAll w ts).released = w.released := (reportAll_frame ts w).2.2.2.2

@[simp] theorem reportAll_nil (w : World) : reportAll w [] = w := rfl

theorem memcpy_some (d src : List BYTE) (off n : Nat) (h1 : off + n ≤ d.length)
    (h2 : n ≤ src.length) :
    memcpy (some d) (off : Int) src (n : Int) =
      some (d.take off ++ src.take n ++ d.drop (off + n)) := by
  have h : (0 : Int) ≤ off ∧ (0 : Int) ≤ n ∧ (off : Int) + n ≤ d.length ∧ (n : Int) ≤ src.length := by
    refine ⟨by omega, by omega, by omega, by omega⟩
  simp only [memcpy, h, and_self, if_true, Int.toNat_ofNat]

theorem Write_accepted (w : World) (src buf : List BYTE) (L n : Nat)
    (hopen : OpenSession w) (hbuf : w.port.m_szWriteBuffer = some buf)
    (hL : w.port.m_nWriteSize = L) (hn : 0 < n) (hsrc : n ≤ src.length)
    (hfit : L + n < w.port.m_nWriteBufferSize)
    (hcap : w.port.m_nWriteBufferSize < 2147483648) :
    Write w (some src) n =
      ({ w with
          port := { w.port with
            m_szWriteBuffer := some (buf.take L ++ src.take n ++ buf.drop (L + n))
            m_nWriteSize := ((L + n : Nat) : Int) }
          signaled := SetEvent w.signaled w.port.m_hWriteEvent },
       Exit.ret ()) := by
  obtain ⟨hcomm, _, hlen, _, _, _⟩ := hopen
  rw [hbuf] at hlen
  simp only [Option.map_some', Option.some.injEq] at hlen
  have hsum : toInt32 ((L : Int) + (n : Int)) = ((L + n : Nat) : Int) := by
    rw [toInt32_of_range] <;> omega
  have hcapi : toInt32 (w.port.m_nWriteBufferSize : Int) = w.port.m_nWriteBufferSize := by
    rw [toInt32_of_range] <;> omega
  have hpos : ((n : Int) > 0) := by omega
  have hlt : ((L + n : Nat) : Int) < (w.port.m_nWriteBufferSize : Int) := by omega
  have hmem : (0 : Int) ≤ L ∧ (0 : Int) ≤ n := ⟨by omega, by omega⟩
  have hm := memcpy_some buf src L n (by omega) hsrc
  unfold Write
  rw [if_neg hcomm]
  simp only [hpos, not_true_eq_false, if_false, hsum, hcapi, hlt, hbuf, hL, hm]

theorem newArray_length (storage : List BYTE) (n : Nat) : (newArray storage n).length = n := by
  simp [newArray]

theorem openedWorld_buffer (n : Fin 4294967296) :
    (openedWorld n).port.m_szWriteBuffer = some (newArray [] n.val) := rfl

theorem openedWorld_size (n : Fin 4294967296) :
    (openedWorld n).port.m_nWriteBufferSize = n.val := rfl

theorem openedWorld_staged (n : Fin 4294967296) :
    (openedWorld n).port.m_nWriteSize = 0 := rfl

theorem openedWorld_session (n : Fin 4294967296) : OpenSession (openedWorld n) := by
  have hcomm : (openedWorld n).port.m_hComm = HANDLE.obj 10 := rfl
  refine ⟨by rw [hcomm]; decide, rfl, ?_, ?_, ?_, ?_⟩
  · rw [openedWorld_buffer, openedWorld_size]
    simp [newArray_length]
  · rw [openedWorld_staged]
  · rw [openedWorld_staged]; decide
  · rw [openedWorld_size]; exact n.isLt

/-- C1 (as amended): on an open session with staged length `L` and capacity below
`2^31`, `Write( Buffer, n )` with a non-null `Buffer` of at least `n > 0` bytes and
`L + n < capacity` returns; the array keeps its length and its first `L` bytes, its
bytes `L .. L+n-1` are the first `n` bytes of `Buffer` in order, the staged length is
`L + n`, and the write event is signalled. -/
theorem Write_appends_payload (w : World) (src buf : List BYTE) (L n : Nat)
    (hopen : OpenSession w) (hbuf : w.port.m_szWriteBuffer = some buf)
    (hL : w.port.m_nWriteSize = L) (hn : 0 < n) (hsrc : n ≤ src.length)
    (hfit : L + n < w.port.m_nWriteBufferSize)
    (hcap : w.port.m_nWriteBufferSize < 2147483648) :
    (Write w (some src) n).2 = Exit.ret () ∧
    ∃ out, (Write w (some src) n).1.port.m_szWriteBuffer = some out ∧
      out.length = buf.length ∧
      out.take L = buf.take L ∧
      (out.drop L).take n = src.take n ∧
      (∀ j, j < n → out[L + j]? = src[j]?) ∧
      (Write w (some src) n).1.port.m_nWriteSize = ((L + n : Nat) : Int) ∧
      isSignaled (Write w (some src) n).1.signaled
        (Write w (some src) n).1.port.m_hWriteEvent = true := by
  have hlen : buf.length = w.port.m_nWriteBufferSize := by
    have h := hopen.2.2.1
    rw [hbuf] at h
    simpa using h
  rw [Write_accepted w src buf L n hopen hbuf hL hn hsrc hfit hcap]
  refine ⟨rfl, _, rfl, ?_, ?_, ?_, ?_, rfl, ?_⟩
  · simp only [List.length_append, List.length_take, List.length_drop]
    omega
  · rw [List.append_assoc, List.take_append_of_le_length (by simp; omega)]
    simp
  · rw [List.append_assoc, List.drop_append_of_le_length (by simp; omega)]
    have h1 : (List.take L buf).length = L := by simp; omega
    rw [List.drop_of_length_le (by omega)]
    simp only [List.nil_append]
    rw [List.take_append_of_le_length (by simp; omega)]
    simp
  · intro j hj
    have h1 : (List.take L buf).length = L := by simp; omega
    have h2 : (List.take n src).length = n := by simp; omega
    rw [List.append_assoc, List.getElem?_append_right (by omega), h1,
      List.getElem?_append_left (by omega)]
    simp [List.getElem?_take, hj]
  · exact isSignaled_SetEvent _ _ hopen.2.1

theorem Write_appends_payload_witness :
    (Write (openedWorld 64) (some PING) (4 : Nat)).2 = Exit.ret () ∧
    ∃ out, (Write (openedWorld 64) (some PING) (4 : Nat)).1.port.m_szWriteBuffer = some out ∧
      out.length = (newArray [] 64).length ∧
      out.take 0 = (newArray [] 64).take 0 ∧
      (out.drop 0).take 4 = PING.take 4 ∧
      (∀ j, j < 4 → out[0 + j]? = PING[j]?) ∧
      (Write (openedWorld 64) (some PING) (4 : Nat)).1.port.m_nWriteSize = ((0 + 4 : Nat) : Int) ∧
      isSignaled (Write (openedWorld 64) (some PING) (4 : Nat)).1.signaled
        (Write (openedWorld 64) (some PING) (4 : Nat)).1.port.m_hWriteEvent = true :=
  Write_appends_payload (openedWorld 64) PING (newArray [] 64) 0 4 (openedWorld_session 64)
    rfl rfl (by decide) (by decide) (by decide) (by decide)

/-- C1 as stated fails: a session opened with capacity `2^31` on a fresh port has
nothing staged, and a one-byte payload satisfies `L + n < capacity`, but `Write` ends
in the failed assertion `( m_nWriteSize + nSize ) < ( int )m_nWriteBufferSize` and
changes nothing. -/
theorem Write_rejected_at_capacity_2G :
    OpenSession (openedWorld 2147483648) ∧
    (openedWorld 2147483648).port.m_nWriteSize = 0 ∧
    ((openedWorld 2147483648).port.m_nWriteBufferSize : Int) = 2147483648 ∧
    ((0 : Int) + 1 < 2147483648) ∧
    Write (openedWorld 2147483648) (some [65]) 1 =
      (openedWorld 2147483648, Exit.assertFailed Assertion.fitsBuffer) :=
  ⟨openedWorld_session _, rfl, rfl, by decide, rfl⟩

/-- Where no `int` overflows, `Write( Buffer, nSize )` fails an assertion and changes
nothing when the session is unopened, `Buffer` is `NULL`, `nSize <= 0`, or the staged
length plus `nSize` reaches the capacity. -/
theorem Write_rejects (w : World) (Buffer : Option (List BYTE)) (nSize : Int)
    (hL0 : 0 ≤ w.port.m_nWriteSize) (hcap : w.port.m_nWriteBufferSize < 4294967296)
    (hsum : w.port.m_nWriteSize + nSize < 2147483648)
    (h : w.port.m_hComm = HANDLE.INVALID_HANDLE_VALUE ∨ Buffer = none ∨ nSize ≤ 0 ∨
      (w.port.m_nWriteBufferSize : Int) ≤ w.port.m_nWriteSize + nSize) :
    (Write w Buffer nSize).1 = w ∧ ∃ a, (Write w Buffer nSize).2 = Exit.assertFailed a := by
  unfold Write
  by_cases h1 : w.port.m_hComm = HANDLE.INVALID_HANDLE_VALUE
  · rw [if_pos h1]; exact ⟨rfl, _, rfl⟩
  · rw [if_neg h1]
    cases Buffer with
    | none => exact ⟨rfl, _, rfl⟩
    | some src =>
      dsimp only
      by_cases h3 : nSize > 0
      · have h4 : ¬ (toInt32 (w.port.m_nWriteSize + nSize) <
            toInt32 (w.port.m_nWriteBufferSize : Int)) := by
          have hge : (w.port.m_nWriteBufferSize : Int) ≤ w.port.m_nWriteSize + nSize := by
            rcases h with h | h | h | h
            · exact absurd h h1
            · cases h
            · omega
            · exact h
          rw [toInt32_of_range (w.port.m_nWriteSize + nSize) (by omega) hsum]
          unfold toInt32
          omega
        rw [if_neg (not_not_intro h3), if_pos h4]
        exact ⟨rfl, _, rfl⟩
      · rw [if_pos h3]
        exact ⟨rfl, _, rfl⟩

theorem Write_rejects_witness :
    (Write (openedWorld 64) (some (List.replicate 64 0)) 64).1 = openedWorld 64 ∧
    ∃ a, (Write (openedWorld 64) (some (List.replicate 64 0)) 64).2 = Exit.assertFailed a :=
  Write_rejects (openedWorld 64) (some (List.replicate 64 0)) 64 (by decide) (by decide)
    (by decide) (Or.inr (Or.inr (Or.inr (by decide))))

/-- C2 at its failing input: with capacity 64 and one byte staged, a payload of
`2^31 - 1` bytes has staged length + payload length `>=` capacity, but the `int` sum
`m_nWriteSize + nSize` wraps to `-2^31`, every assertion of `Write` passes, and the
call runs into the `memcpy` past the end of the 64-byte array. -/
theorem Write_overflow_passes_capacity_check :
    OpenSession oneStaged ∧
    oneStaged.port.m_nWriteSize = 1 ∧
    oneStaged.port.m_nWriteBufferSize = 64 ∧
    ((oneStaged.port.m_nWriteBufferSize : Int) ≤ oneStaged.port.m_nWriteSize + 2147483647) ∧
    toInt32 (oneStaged.port.m_nWriteSize + 2147483647) = -2147483648 ∧
    (Write oneStaged (some (List.replicate 2147483647 0)) 2147483647).2 = Exit.fault :=
  ⟨by decide, by decide, by decide, by decide, by decide, by decide⟩

theorem Write_accepted_session (w : World) (src buf : List BYTE) (L n : Nat)
    (hopen : OpenSession w) (hbuf : w.port.m_szWriteBuffer = some buf)
    (hL : w.port.m_nWriteSize = L) (hn : 0 < n) (hsrc : n ≤ src.length)
    (hfit : L + n < w.port.m_nWriteBufferSize)
    (hcap : w.port.m_nWriteBufferSize < 2147483648) :
    OpenSession (Write w (some src) n).1 := by
  have hlen : buf.length = w.port.m_nWriteBufferSize := by
    have h := hopen.2.2.1
    rw [hbuf] at h
    simpa using h
  rw [Write_accepted w src buf L n hopen hbuf hL hn hsrc hfit hcap]
  obtain ⟨h1, h2, _, _, _, h6⟩ := hopen
  refine ⟨h1, h2, ?_, ?_, ?_, h6⟩
  · simp only [Option.map_some', Option.some.injEq, List.length_append, List.length_take,
      List.length_drop]
    omega
  · simp only; omega
  · simp only; omega

theorem staged_Write (w : World) (src buf : List BYTE) (L : Nat)
    (hopen : OpenSession w) (hbuf : w.port.m_szWriteBuffer = some buf)
    (hL : w.port.m_nWriteSize = L) (hn : 0 < src.length)
    (hfit : L + src.length < w.port.m_nWriteBufferSize)
    (hcap : w.port.m_nWriteBufferSize < 2147483648) :
    staged (Write w (some src) src.length).1.port = staged w.port ++ src := by
  have hlen : buf.length = w.port.m_nWriteBufferSize := by
    have h := hopen.2.2.1
    rw [hbuf] at h
    simpa using h
  rw [Write_accepted w src buf L src.length hopen hbuf hL hn (le_refl _) hfit hcap]
  simp only [staged, Option.getD_some, Int.toNat_ofNat, hbuf, hL, List.take_length]
  have h1 : (List.take L buf ++ src).length = L + src.length := by
    simp only [List.length_append, List.length_take]; omega
  rw [List.take_append_of_le_length (by omega), List.take_of_length_le (by omega)]

theorem OpenSession_buffer (w : World) (hopen : OpenSession w) :
    ∃ buf, w.port.m_szWriteBuffer = some buf ∧ buf.length = w.port.m_nWriteBufferSize := by
  have h := hopen.2.2.1
  cases hb : w.port.m_szWriteBuffer with
  | none => rw [hb] at h; simp at h
  | some buf => rw [hb] at h; exact ⟨buf, rfl, by simpa using h⟩

theorem Write_accepted_frame (w : World) (src : List BYTE) (L n : Nat)
    (hopen : OpenSession w)
    (hL : w.port.m_nWriteSize = L) (hn : 0 < n) (hsrc : n ≤ src.length)
    (hfit : L + n < w.port.m_nWriteBufferSize)
    (hcap : w.port.m_nWriteBufferSize < 2147483648) :
    (Write w (some src) n).2 = Exit.ret () ∧
    (Write w (some src) n).1.port.m_nWriteSize = ((L + n : Nat) : Int) ∧
    (Write w (some src) n).1.port.m_nWriteBufferSize = w.port.m_nWriteBufferSize ∧
    (Write w (some src) n).1.device = w.device := by
  obtain ⟨buf, hbuf, _⟩ := OpenSession_buffer w hopen
  rw [Write_accepted w src buf L n hopen hbuf hL hn hsrc hfit hcap]
  exact ⟨rfl, rfl, rfl, rfl⟩

theorem WriteAll_staged (ps : List (List BYTE)) :
    ∀ (w : World) (L : Nat), OpenSession w → w.port.m_nWriteSize = L →
      (∀ p ∈ ps, 0 < p.length) →
      L + ps.flatten.length < w.port.m_nWriteBufferSize →
      w.port.m_nWriteBufferSize < 2147483648 →
      (WriteAll ps w).2 = Exit.ret () ∧
      OpenSession (WriteAll ps w).1 ∧
      (WriteAll ps w).1.port.m_nWriteSize = ((L + ps.flatten.length : Nat) : Int) ∧
      staged (WriteAll ps w).1.port = staged w.port ++ ps.flatten ∧
      (WriteAll ps w).1.device = w.device := by
  induction ps with
  | nil =>
    intro w L hopen hL _ _ _
    simp [WriteAll, hopen, hL]
  | cons p ps ih =>
    intro w L hopen hL hne hfit hcap
    have hp : 0 < p.length := hne p (List.mem_cons_self _ _)
    simp only [List.flatten_cons, List.length_append] at hfit
    obtain ⟨buf, hbuf, _⟩ := OpenSession_buffer w hopen
    obtain ⟨hr, hsz, hcapeq, hdev⟩ :=
      Write_accepted_frame w p L p.length hopen hL hp (le_refl _) (by omega) hcap
    have hs := Write_accepted_session w p buf L p.length hopen hbuf hL hp (le_refl _)
      (by omega) hcap
    have hst := staged_Write w p buf L hopen hbuf hL hp (by omega) hcap
    have hstep : WriteAll (p :: ps) w = WriteAll ps (Write w (some p) p.length).1 := by
      simp only [WriteAll]
      split
      · next w1 u heq =>
        rw [heq]
      · next r hnot =>
        exfalso
        exact hnot (Write w (some p) p.length).1 () (by rw [← hr])
    rw [hstep]
    obtain ⟨a1, a2, a3, a4, a5⟩ := ih (Write w (some p) p.length).1 (L + p.length) hs hsz
      (fun q hq => hne q (List.mem_cons_of_mem _ hq)) (by rw [hcapeq]; omega)
      (by rw [hcapeq]; exact hcap)
    refine ⟨a1, a2, ?_, ?_, ?_⟩
    · rw [a3]; simp only [List.flatten_cons, List.length_append]; congr 1; omega
    · rw [a4, hst]; simp
    · rw [a5, hdev]

theorem WriteChar_written (out : WriteOutcome) (w : World)
    (h0 : 0 ≤ w.port.m_nWriteSize) (h1 : w.port.m_nWriteSize < 4294967296) :
    (WriteChar out w).1.device.written = w.device.written ++ [staged w.port] := by
  have hd : toDWORD w.port.m_nWriteSize = w.port.m_nWriteSize.toNat := by
    unfold toDWORD
    rw [Int.emod_eq_of_lt h0 h1]
  unfold WriteChar
  simp only [staged, hd, reportAll_port, reportAll_device]
  split <;> split <;> simp

/-- C3 (as amended): on an open session with an empty staging buffer and capacity
below `2^31`, a sequence of `Write` calls with non-empty payloads whose cumulative
length stays strictly below the capacity is accepted call by call, and the data of the
`WriteFile` request of the following `WriteChar` is the concatenation of the payloads in
call order, whatever the device answers. -/
theorem WriteAll_WriteChar_hands_concatenation (w : World) (ps : List (List BYTE))
    (out : WriteOutcome) (hopen : OpenSession w) (hempty : w.port.m_nWriteSize = 0)
    (hne : ∀ p ∈ ps, 0 < p.length)
    (htotal : ps.flatten.length < w.port.m_nWriteBufferSize)
    (hcap : w.port.m_nWriteBufferSize < 2147483648) :
    (WriteAll ps w).2 = Exit.ret () ∧
    (WriteChar out (WriteAll ps w).1).1.device.written = w.device.written ++ [ps.flatten] := by
  obtain ⟨h1, h2, h3, h4, h5⟩ := WriteAll_staged ps w 0 hopen (by simpa using hempty) hne
    (by omega) hcap
  refine ⟨h1, ?_⟩
  rw [WriteChar_written out _ h2.2.2.2.1 (by have := h2.2.2.2.2.1; omega), h4, h5]
  simp [staged, hempty]

theorem WriteAll_WriteChar_hands_concatenation_witness :
    (WriteAll [PING, PONG] (openedWorld 64)).2 = Exit.ret () ∧
    (WriteChar (WriteOutcome.done 8) (WriteAll [PING, PONG] (openedWorld 64)).1).1.device.written =
      (openedWorld 64).device.written ++ [[PING, PONG].flatten] :=
  WriteAll_WriteChar_hands_concatenation (openedWorld 64) [PING, PONG] (WriteOutcome.done 8)
    (openedWorld_session 64) rfl (by decide) (by decide) (by decide)

/-- C3 as stated fails: with capacity 4 and nothing staged, the single call
`Write( "PING", 4 )` has cumulative length 4, which does not exceed the capacity, but
the call ends in the failed capacity assertion and the following `WriteChar` hands the
empty sequence to the device. -/
theorem Write_at_exact_capacity_not_sent :
    OpenSession (openedWorld 4) ∧
    (openedWorld 4).port.m_nWriteSize = 0 ∧
    [PING].flatten.length ≤ (openedWorld 4).port.m_nWriteBufferSize ∧
    (WriteAll [PING] (openedWorld 4)).2 = Exit.assertFailed Assertion.fitsBuffer ∧
    (WriteChar (WriteOutcome.done 0) (WriteAll [PING] (openedWorld 4)).1).1.device.written =
      [[]] :=
  ⟨by decide, by decide, by decide, by decide, by decide⟩

theorem closeWait_port (k : Nat) : ∀ w : World,
    (closeWait k w).port = { w.port with m_bThreadAlive := false } ∧
    (closeWait k w).signaled = SetEvent w.signaled w.port.m_hShutdownEvent ∧
    (closeWait k w).device = w.device ∧ (closeWait k w).posted = w.posted ∧
    (closeWait k w).reported = w.reported ∧ (closeWait k w).released = w.released := by
  induction k with
  | zero => intro w; simp [closeWait]
  | succ k ih =>
    intro w
    obtain ⟨h1, h2, h3, h4, h5, h6⟩ :=
      ih { w with signaled := SetEvent w.signaled w.port.m_hShutdownEvent }
    simp only [closeWait]
    refine ⟨h1, ?_, h3, h4, h5, h6⟩
    rw [h2]
    cases hS : w.port.m_hShutdownEvent with
    | obj e =>
      simp only [SetEvent]
      by_cases he : e ∈ w.signaled <;> simp [he]
    | NULL => simp [SetEvent]
    | INVALID_HANDLE_VALUE => simp [SetEvent]

theorem closeShutdownWait_port (k : Nat) (w : World) :
    (closeShutdownWait k w).port =
      { w.port with m_bThreadAlive :=
          if w.port.m_hShutdownEvent = HANDLE.NULL then w.port.m_bThreadAlive else false } := by
  unfold closeShutdownWait
  split_ifs with h1 h2 h2
  · exact absurd h2 h1.1
  · exact (closeWait_port k w).1
  · rfl
  · rcases w with ⟨⟨⟩, _, _, _, _, _⟩
    simp_all

theorem closeComm_port (w : World) :
    (closeComm w).port = { w.port with m_hComm := HANDLE.INVALID_HANDLE_VALUE } := by
  unfold closeComm
  split_ifs with h
  · rfl
  · rcases w with ⟨⟨⟩, _, _, _, _, _⟩
    simp_all

theorem closeShutdownEvent_port (w : World) :
    (closeShutdownEvent w).port = { w.port with m_hShutdownEvent := HANDLE.NULL } := by
  unfold closeShutdownEvent
  split_ifs with h
  · rfl
  · rcases w with ⟨⟨⟩, _, _, _, _, _⟩
    simp_all

theorem closeOvEvent_port (w : World) :
    (closeOvEvent w).port = { w.port with m_ov_hEvent := HANDLE.NULL } := by
  unfold closeOvEvent
  split_ifs with h
  · rfl
  · rcases w with ⟨⟨⟩, _, _, _, _, _⟩
    simp_all

theorem closeWriteEvent_port (w : World) :
    (closeWriteEvent w).port = { w.port with m_hWriteEvent := HANDLE.NULL } := by
  unfold closeWriteEvent
  split_ifs with h
  · rfl
  · rcases w with ⟨⟨⟩, _, _, _, _, _⟩
    simp_all

theorem closeEventArray_port (w : World) :
    (closeEventArray w).port =
      { w.port with m_hEventArray := [HANDLE.NULL, HANDLE.NULL, HANDLE.NULL] } := rfl

theorem closeBuffer_port (w : World) :
    (closeBuffer w).port = { w.port with m_szWriteBuffer := none } := by
  unfold closeBuffer
  split_ifs with h
  · rfl
  · rcases w with ⟨⟨⟩, _, _, _, _, _⟩
    simp_all

theorem closeThread_port (w : World) :
    (closeThread w).port = { w.port with m_Thread := HANDLE.NULL } := by
  unfold closeThread
  split_ifs with h
  · rfl
  · rcases w with ⟨⟨⟩, _, _, _, _, _⟩
    simp_all

/-- The member fields after `Close`: the handles, the event array and the buffer
pointer are at their sentinels, every other field is as before (the flag
`m_bThreadAlive` is clear when the wait loop ran). -/
theorem Close_port (k : Nat) (w : World) :
    (Close k w).port =
      { w.port with
        m_hComm := HANDLE.INVALID_HANDLE_VALUE
        m_hShutdownEvent := HANDLE.NULL
        m_ov_hEvent := HANDLE.NULL
        m_hWriteEvent := HANDLE.NULL
        m_hEventArray := [HANDLE.NULL, HANDLE.NULL, HANDLE.NULL]
        m_szWriteBuffer := none
        m_Thread := HANDLE.NULL
        m_bThreadAlive :=
          if w.port.m_hShutdownEvent = HANDLE.NULL then w.port.m_bThreadAlive else false } := by
  simp only [Close, closeThread_port, closeBuffer_port, closeEventArray_port,
    closeWriteEvent_port, closeOvEvent_port, closeShutdownEvent_port, closeComm_port,
    closeShutdownWait_port]

theorem Close_writeSize (k : Nat) (w : World) :
    (Close k w).port.m_nWriteSize = w.port.m_nWriteSize := by
  rw [Close_port]

theorem Close_unopened (k : Nat) (w : World) : Unopened (Close k w).port := by
  rw [Close_port]
  exact ⟨rfl, rfl, rfl, rfl, rfl, rfl, rfl, rfl⟩

theorem Close_of_unopened (k : Nat) (w : World) (h : Unopened w.port) : Close k w = w := by
  obtain ⟨_, h1, h2, h3, h4, h5, h6, h7⟩ := h
  have e1 : closeShutdownWait k w = w := by simp [closeShutdownWait, h2]
  have e2 : closeComm w = w := by simp [closeComm, h1]
  have e3 : closeShutdownEvent w = w := by simp [closeShutdownEvent, h2]
  have e4 : closeOvEvent w = w := by simp [closeOvEvent, h3]
  have e5 : closeWriteEvent w = w := by simp [closeWriteEvent, h4]
  have e6 : closeEventArray w = w := by
    rcases w with ⟨⟨⟩, _, _, _, _, _⟩
    simp_all [closeEventArray, EVENT_TYPE_MAX]
  have e7 : closeBuffer w = w := by simp [closeBuffer, h6]
  have e8 : closeThread w = w := by simp [closeThread, h7]
  simp only [Close, e1, e2, e3, e4, e5, e6, e7, e8]

/-- C5: after `Close` the device handle, the three event handles, the event array, the
staging buffer and the thread handle are at their unopened sentinels and `IsOpen()` is
false; a second `Close` leaves the whole state as it is, the list of released resources
included. -/
theorem Close_resets_and_is_idempotent (k1 k2 : Nat) (w : World) :
    Unopened (Close k1 w).port ∧
    IsOpen (Close k1 w).port = false ∧
    Close k2 (Close k1 w) = Close k1 w ∧
    (Close k2 (Close k1 w)).released = (Close k1 w).released := by
  have h := Close_of_unopened k2 (Close k1 w) (Close_unopened k1 w)
  exact ⟨Close_unopened k1 w, (Close_unopened k1 w).1, h, by rw [h]⟩

theorem openBegin_thread (env : OpenEnv) (a : OpenArgs) (w : World)
    (hthr : IsOpen w.port = false → w.port.m_Thread = HANDLE.NULL) :
    (openBegin env a w).port.m_Thread = HANDLE.NULL := by
  unfold openBegin
  split_ifs with h
  · rw [Close_port]
  · exact hthr (by simpa using h)

theorem OpenThread_fails (env : OpenEnv) (w : World) (hthr : w.port.m_Thread = HANDLE.NULL)
    (hf : env.createThread = none) :
    (OpenThread env w).2 = Exit.ret false ∧ Unopened (OpenThread env w).1.port := by
  unfold OpenThread
  rw [if_neg (by simp [hthr]), if_pos (by simp [openCreateThread, hf, handleOrNull])]
  exact ⟨rfl, Close_unopened _ _⟩

theorem OpenDone_fails (env : OpenEnv) (w : World) :
    (OpenDone env false w).2 = Exit.ret false ∧ Unopened (OpenDone env false w).1.port :=
  ⟨rfl, Close_unopened _ _⟩

theorem OpenConfigure_fails (env : OpenEnv) (a : OpenArgs) (w : World)
    (hthr : w.port.m_Thread = HANDLE.NULL)
    (hf : env.setCommTimeouts = false ∨ env.setCommMask = false ∨ env.getCommState = false ∨
      env.setCommState = false ∨ env.setupComm = false ∨ env.purgeComm = false ∨
      env.createThread = none) :
    (OpenConfigure env a w).2 = Exit.ret false ∧ Unopened (OpenConfigure env a w).1.port := by
  unfold OpenConfigure
  split_ifs with h1 h2 h3 h4 h5 h6
  · apply OpenThread_fails
    · simpa [openPurgeComm, openSetupComm, openSetCommState, openGetCommState,
        openSetCommMask, openSetCommTimeouts] using hthr
    · simpa [h1, h2, h3, h4, h5, h6] using hf
  all_goals exact OpenDone_fails _ _

theorem OpenCreate_fails (env : OpenEnv) (a : OpenArgs) (w : World)
    (hthr : w.port.m_Thread = HANDLE.NULL)
    (hnew : env.allocated = false →
      env.ovEvent = none ∨ env.writeEvent = none ∨ env.shutdownEvent = none)
    (hf : env.stepFails) :
    (OpenCreate env a w).2 = Exit.ret false ∧ Unopened (OpenCreate env a w).1.port := by
  unfold OpenCreate
  by_cases h1 : (openOvEvent env w).port.m_ov_hEvent = HANDLE.NULL
  · rw [if_pos h1]; exact OpenDone_fails _ _
  rw [if_neg h1]
  by_cases h2 : (openWriteEvent env (openOvEvent env w)).port.m_hWriteEvent = HANDLE.NULL
  · rw [if_pos h2]; exact OpenDone_fails _ _
  rw [if_neg h2]
  by_cases h3 : (openShutdownEvent env (openWriteEvent env
      (openOvEvent env w))).port.m_hShutdownEvent = HANDLE.NULL
  · rw [if_pos h3]; exact OpenDone_fails _ _
  rw [if_neg h3]
  have e1 : env.ovEvent ≠ none := by
    intro h; apply h1; simp [openOvEvent, h, handleOrNull]
  have e2 : env.writeEvent ≠ none := by
    intro h; apply h2; simp [openWriteEvent, h, handleOrNull]
  have e3 : env.shutdownEvent ≠ none := by
    intro h; apply h3; simp [openShutdownEvent, h, handleOrNull]
  have e4 : ¬ env.allocated = false := by
    intro h
    rcases hnew h with h | h | h
    · exact e1 h
    · exact e2 h
    · exact e3 h
  rw [if_neg e4]
  by_cases h4 : (openAllocate env a (openEventArray (openShutdownEvent env (openWriteEvent env
      (openOvEvent env w))))).port.m_szWriteBuffer = none
  · rw [if_pos h4]; exact OpenDone_fails _ _
  rw [if_neg h4]
  by_cases h5 : (openCreateFile env a (openAllocate env a (openEventArray (openShutdownEvent env
      (openWriteEvent env (openOvEvent env w)))))).port.m_hComm = HANDLE.INVALID_HANDLE_VALUE
  · rw [if_pos h5]; exact OpenDone_fails _ _
  rw [if_neg h5]
  apply OpenConfigure_fails
  · exact hthr
  · have e5 : env.createFile ≠ none := by
      intro h; apply h5; simp [openCreateFile, h, handleOrInvalid]
    unfold OpenEnv.stepFails at hf
    rcases hf with h | h | h | h | h | h
    · exact absurd h e1
    · exact absurd h e2
    · exact absurd h e3
    · exact absurd h e4
    · exact absurd h e5
    · exact h

/-- When the assertions of `Open` hold (port number in range, owner not `NULL`, no
thread handle left on an unopened port) and a step of `Open` fails without the
allocation `new char[nBufferSize]` being the first step to fail, `Open` returns `FALSE`
and leaves the port unopened: `IsOpen()` is false and the device handle, the event
handles, the event array, the staging buffer and the thread handle are at their
sentinels. -/
theorem Open_failure_leaves_unopened (env : OpenEnv) (a : OpenArgs) (w : World)
    (hport : a.port ≤ SERIAL_PORT_MAX) (howner : a.pPortOwner ≠ none)
    (hthr : IsOpen w.port = false → w.port.m_Thread = HANDLE.NULL)
    (hnew : env.allocated = false →
      env.ovEvent = none ∨ env.writeEvent = none ∨ env.shutdownEvent = none)
    (hf : env.stepFails) :
    (Open env a w).2 = Exit.ret false ∧ Unopened (Open env a w).1.port ∧
    IsOpen (Open env a w).1.port = false := by
  unfold Open
  rw [if_neg (not_not_intro hport), if_neg howner]
  have h := OpenCreate_fails env a (openBegin env a w) (openBegin_thread env a w hthr) hnew hf
  exact ⟨h.1, h.2, h.2.1⟩

theorem Open_failure_leaves_unopened_witness :
    (Open failEnv (openArgs 64) freshWorld).2 = Exit.ret false ∧
    Unopened (Open failEnv (openArgs 64) freshWorld).1.port ∧
    IsOpen (Open failEnv (openArgs 64) freshWorld).1.port = false :=
  Open_failure_leaves_unopened failEnv (openArgs 64) freshWorld (by decide) (by decide)
    (by decide) (by decide) (by simp [OpenEnv.stepFails, failEnv])

/-- C6 at its failing input: `Open` on a freshly constructed port with the three events
created and `new char[nBufferSize]` failing.  The allocation is one of the steps of the
claim, but `new` throws, so the test `m_szWriteBuffer == NULL` is never reached: `Open`
does not return `FALSE`, it is left by the exception before label `done`, `Close` is not
called, and the three event handles and the event array stay set, so the port is not in
the unopened state. -/
theorem Open_failed_allocation_throws :
    allocFailEnv.stepFails ∧
    (openArgs 64).port ≤ SERIAL_PORT_MAX ∧ (openArgs 64).pPortOwner ≠ none ∧
    IsOpen freshWorld.port = false ∧ freshWorld.port.m_Thread = HANDLE.NULL ∧
    (Open allocFailEnv (openArgs 64) freshWorld).2 = Exit.threw ∧
    (Open allocFailEnv (openArgs 64) freshWorld).2 ≠ Exit.ret false ∧
    (Open allocFailEnv (openArgs 64) freshWorld).1.port.m_ov_hEvent = HANDLE.obj 1 ∧
    (Open allocFailEnv (openArgs 64) freshWorld).1.port.m_hWriteEvent = HANDLE.obj 2 ∧
    (Open allocFailEnv (openArgs 64) freshWorld).1.port.m_hShutdownEvent = HANDLE.obj 3 ∧
    (Open allocFailEnv (openArgs 64) freshWorld).1.port.m_hEventArray =
      [HANDLE.obj 3, HANDLE.obj 1, HANDLE.obj 2] ∧
    (Open allocFailEnv (openArgs 64) freshWorld).1.released = [] ∧
    ¬ Unopened (Open allocFailEnv (openArgs 64) freshWorld).1.port := by
  unfold OpenEnv.stepFails Unopened
  decide

/-- C7 at its failing input: "PING" is staged in an open session, the port is closed
before the worker sends it, and the port is opened again.  The second `Open` succeeds,
but the staged length is still 4 (it is 0 after the same `Open` on a freshly
constructed port), so the two ports differ, and the next write cycle after
`Write( "PONG", 4 )` hands four bytes of the new, never written array to the device
in front of "PONG". -/
theorem reopen_keeps_stale_staged_length :
    pingStaged.port.m_nWriteSize = 4 ∧
    IsOpen (Close 0 pingStaged).port = false ∧
    (Open okEnv (openArgs 64) (Close 0 pingStaged)).2 = Exit.ret true ∧
    (Open okEnv (openArgs 64) freshWorld).2 = Exit.ret true ∧
    reopened.port.m_nWriteSize = 4 ∧
    (openedWorld 64).port.m_nWriteSize = 0 ∧
    reopened.port ≠ (openedWorld 64).port ∧
    (WriteChar (WriteOutcome.done 8) (Write reopened (some PONG) 4).1).1.device.written =
      [[0, 0, 0, 0, 80, 79, 78, 71]] :=
  ⟨by decide, by decide, by decide, by decide, by decide, by decide, by decide, by decide⟩

theorem OpenDone_writeSize (env : OpenEnv) (r : Bool) (w : World) :
    (OpenDone env r w).1.port.m_nWriteSize = w.port.m_nWriteSize := by
  unfold OpenDone
  cases r <;> simp [Close_writeSize]

theorem OpenThread_writeSize (env : OpenEnv) (w : World) :
    (OpenThread env w).1.port.m_nWriteSize = w.port.m_nWriteSize := by
  unfold OpenThread
  split_ifs <;> simp [OpenDone_writeSize, ProcessErrorMessage, openCreateThread]

theorem OpenConfigure_writeSize (env : OpenEnv) (a : OpenArgs) (w : World) :
    (OpenConfigure env a w).1.port.m_nWriteSize = w.port.m_nWriteSize := by
  unfold OpenConfigure
  split_ifs <;>
    simp [OpenDone_writeSize, OpenThread_writeSize, ProcessErrorMessage, openPurgeComm,
      openSetupComm, openSetCommState, openGetCommState, openSetCommMask, openSetCommTimeouts]

theorem OpenCreate_writeSize (env : OpenEnv) (a : OpenArgs) (w : World) :
    (OpenCreate env a w).1.port.m_nWriteSize = w.port.m_nWriteSize := by
  unfold OpenCreate
  split_ifs <;>
    simp [OpenDone_writeSize, OpenConfigure_writeSize, openTimeouts, openCreateFile,
      openAllocate, openEventArray, openShutdownEvent, openWriteEvent, openOvEvent]

theorem Open_writeSize (env : OpenEnv) (a : OpenArgs) (w : World) :
    (Open env a w).1.port.m_nWriteSize = w.port.m_nWriteSize := by
  have hb : (openBegin env a w).port.m_nWriteSize = w.port.m_nWriteSize := by
    unfold openBegin
    split_ifs <;> simp [Close_writeSize]
  unfold Open
  split_ifs <;> first | rfl | rw [OpenCreate_writeSize, hb]

theorem OpenDone_false_ne (env : OpenEnv) (w : World) :
    (OpenDone env false w).2 ≠ Exit.ret true := by
  simp [OpenDone]

theorem OpenThread_ok (env : OpenEnv) (w : World) (h : (OpenThread env w).2 = Exit.ret true) :
    (OpenThread env w).1.port.m_szWriteBuffer = w.port.m_szWriteBuffer ∧
    (OpenThread env w).1.port.m_nWriteBufferSize = w.port.m_nWriteBufferSize := by
  unfold OpenThread at h ⊢
  by_cases c1 : w.port.m_Thread ≠ HANDLE.NULL
  · rw [if_pos c1] at h; simp at h
  · rw [if_neg c1] at h ⊢
    by_cases c2 : (openCreateThread env w).port.m_Thread = HANDLE.NULL
    · rw [if_pos c2] at h; exact absurd h (OpenDone_false_ne _ _)
    · rw [if_neg c2]; simp [OpenDone, openCreateThread]

theorem OpenConfigure_ok (env : OpenEnv) (a : OpenArgs) (w : World)
    (h : (OpenConfigure env a w).2 = Exit.ret true) :
    (OpenConfigure env a w).1.port.m_szWriteBuffer = w.port.m_szWriteBuffer ∧
    (OpenConfigure env a w).1.port.m_nWriteBufferSize = w.port.m_nWriteBufferSize := by
  unfold OpenConfigure at h ⊢
  split_ifs at h ⊢ <;>
    first
    | exact absurd h (OpenDone_false_ne _ _)
    | simpa [openPurgeComm, openSetupComm, openSetCommState, openGetCommState,
        openSetCommMask, openSetCommTimeouts] using OpenThread_ok env _ h

theorem OpenCreate_ok (env : OpenEnv) (a : OpenArgs) (w : World)
    (h : (OpenCreate env a w).2 = Exit.ret true) :
    (OpenCreate env a w).1.port.m_szWriteBuffer =
      some (newArray env.storage a.nBufferSize.val) ∧
    (OpenCreate env a w).1.port.m_nWriteBufferSize = a.nBufferSize.val := by
  unfold OpenCreate at h ⊢
  split_ifs at h ⊢ with h1 h2 h3 h4 h5 <;>
    first
    | exact absurd h (OpenDone_false_ne _ _)
    | skip
  have h6 := OpenConfigure_ok env a _ h
  have h7 : env.allocated = true := by
    cases hal : env.allocated
    · exact absurd (by simp [openAllocate, hal]) h4
    · rfl
  rw [h6.1, h6.2]
  simp [openTimeouts, openCreateFile, openAllocate, h7]

theorem Open_ok (env : OpenEnv) (a : OpenArgs) (w : World)
    (h : (Open env a w).2 = Exit.ret true) :
    (Open env a w).1.port.m_szWriteBuffer = some (newArray env.storage a.nBufferSize.val) ∧
    (Open env a w).1.port.m_nWriteBufferSize = a.nBufferSize.val := by
  unfold Open at h ⊢
  by_cases c1 : ¬ (a.port ≤ SERIAL_PORT_MAX)
  · rw [if_pos c1] at h; simp at h
  · rw [if_neg c1] at h ⊢
    by_cases c2 : a.pPortOwner = none
    · rw [if_pos c2] at h; simp at h
    · rw [if_neg c2] at h ⊢
      exact OpenCreate_ok env a _ h

theorem SessionInv_Write (cap : Nat) (w : World) (Buffer : Option (List BYTE)) (nSize : Int)
    (hinv : SessionInv cap w) (hint : isInt32 nSize)
    (h : (Write w Buffer nSize).2 = Exit.ret ()) : SessionInv cap (Write w Buffer nSize).1 := by
  obtain ⟨h1, h2, h3, h4, h5, h6⟩ := hinv
  obtain ⟨hi1, hi2⟩ := hint
  cases Buffer with
  | none =>
    unfold Write at h
    split_ifs at h
  | some src =>
    unfold Write at h ⊢
    dsimp only at h ⊢
    split_ifs at h ⊢ with c1 c2 c3
    cases hm : memcpy w.port.m_szWriteBuffer w.port.m_nWriteSize src nSize with
    | none => rw [hm] at h; simp at h
    | some buf =>
      dsimp only
      cases hb : w.port.m_szWriteBuffer with
      | none => rw [hb] at hm; simp [memcpy] at hm
      | some d =>
      rw [hb] at h3 hm
      simp only [Option.map_some', Option.some.injEq] at h3
      unfold memcpy at hm
      dsimp only at hm
      split_ifs at hm with c4
      simp only [Option.some.injEq] at hm
      obtain ⟨m1, m2, m3, m4⟩ := c4
      rw [h1] at c3
      have hsum : w.port.m_nWriteSize + nSize < 2147483648 := by
        by_contra hge
        have hc : 2147483648 ≤ cap := by omega
        have := h6 hc
        omega
      have hv : toInt32 (w.port.m_nWriteSize + nSize) = w.port.m_nWriteSize + nSize :=
        toInt32_of_range _ (by omega) hsum
      have hcap31 : cap < 2147483648 := by
        by_contra hge
        have hz := h6 (by omega)
        rw [hv] at c3
        unfold toInt32 at c3
        omega
      rw [hv] at c3
      rw [toInt32_of_range (cap : Int) (by omega) (by omega)] at c3
      refine ⟨h1, h2, ?_, ?_, ?_, ?_⟩
      · rw [← hm]
        simp only [Option.map_some', Option.some.injEq, List.length_append, List.length_take,
          List.length_drop]
        omega
      · simp only [hv]; omega
      · simp only [hv]; omega
      · intro hc; omega

theorem WriteChar_port (out : WriteOutcome) (w : World) (n : Nat)
    (h : (WriteChar out w).2 = Exit.ret n) :
    (WriteChar out w).1.port =
      { w.port with m_ov_Offset := 0, m_ov_OffsetHigh := 0, m_nWriteSize := 0 } := by
  unfold WriteChar at h ⊢
  dsimp only at h ⊢
  split_ifs at h ⊢ <;> simp only [reportAll_port]

theorem SessionInv_WriteChar (cap : Nat) (w : World) (out : WriteOutcome) (n : Nat)
    (hinv : SessionInv cap w) (hpos : 0 < cap)
    (h : (WriteChar out w).2 = Exit.ret n) : SessionInv cap (WriteChar out w).1 := by
  obtain ⟨h1, h2, h3, h4, h5, h6⟩ := hinv
  unfold SessionInv
  rw [WriteChar_port out w n h]
  exact ⟨h1, h2, h3, le_refl _, by simpa using hpos, fun _ => rfl⟩

theorem SessionInv_of_reachable (cap : Nat) (w : World) (hpos : 0 < cap)
    (h : Reachable (fun w0 => w0.port.m_nWriteSize = 0) cap w) : SessionInv cap w := by
  induction h with
  | opened env a w0 hP hcap hok =>
    obtain ⟨hb, hs⟩ := Open_ok env a w0 hok
    have hL := Open_writeSize env a w0
    have hP0 : w0.port.m_nWriteSize = 0 := hP
    have hlt : cap < 4294967296 := by rw [← hcap]; exact a.nBufferSize.isLt
    refine ⟨by rw [hs, hcap], hlt, ?_, ?_, ?_, ?_⟩
    · rw [hb, hcap]; simp [newArray_length]
    · rw [hL, hP0]
    · rw [hL, hP0]; exact_mod_cast hpos
    · intro _; rw [hL, hP0]
  | write w1 Buffer nSize _ hint hok ih => exact SessionInv_Write cap w1 Buffer nSize ih hint hok
  | writeChar w1 out n _ hok ih => exact SessionInv_WriteChar cap w1 out n ih hpos hok

/-- C4 (as amended): in every state reached from a successful `Open` with a capacity
greater than 0, made on a port whose staged length is 0 (a freshly constructed port, or
one whose last staged bytes were sent), by accepted `Write` calls and completed write
cycles of the worker, the staged length is at least 0 and below the capacity given to
`Open`. -/
theorem staged_length_below_capacity (cap : Nat) (w : World) (hpos : 0 < cap)
    (h : Reachable (fun w0 => w0.port.m_nWriteSize = 0) cap w) :
    0 ≤ w.port.m_nWriteSize ∧ w.port.m_nWriteSize < cap ∧ w.port.m_nWriteBufferSize = cap := by
  obtain ⟨h1, _, _, h4, h5, _⟩ := SessionInv_of_reachable cap w hpos h
  exact ⟨h4, h5, h1⟩

theorem staged_length_below_capacity_witness :
    0 ≤ (WriteChar (WriteOutcome.done 4) (Write (openedWorld 64) (some PING) 4).1).1.port.m_nWriteSize ∧
    (WriteChar (WriteOutcome.done 4) (Write (openedWorld 64) (some PING) 4).1).1.port.m_nWriteSize
      < (64 : Nat) ∧
    (WriteChar (WriteOutcome.done 4)
      (Write (openedWorld 64) (some PING) 4).1).1.port.m_nWriteBufferSize = 64 :=
  staged_length_below_capacity 64 _ (by decide)
    (Reachable.writeChar _ (WriteOutcome.done 4) 4
      (Reachable.write _ (some PING) 4
        (Reachable.opened okEnv (openArgs 64) freshWorld rfl rfl (by decide))
        ⟨by decide, by decide⟩ (by decide))
      (by decide))

/-- C4 as stated fails: `Open` with buffer size 0 on a freshly constructed port
succeeds, and in the state it yields the staged length 0 is not below the capacity 0. -/
theorem staged_length_not_below_capacity_zero :
    Reachable (fun _ => True) 0 (openedWorld 0) ∧
    (Open okEnv (openArgs 0) freshWorld).2 = Exit.ret true ∧
    ¬ ((openedWorld 0).port.m_nWriteSize < ((0 : Nat) : Int)) :=
  ⟨Reachable.opened okEnv (openArgs 0) freshWorld trivial rfl (by decide), by decide, by decide⟩

theorem isSignaled_SetEvent_of (s : List Nat) (h g : HANDLE) (hs : isSignaled s h = true) :
    isSignaled (SetEvent s g) h = true := by
  cases h with
  | obj e =>
    cases g with
    | obj f =>
      simp only [isSignaled, decide_eq_true_eq] at hs
      by_cases hf : f ∈ s <;> simp [SetEvent, isSignaled, hf, hs]
    | NULL => simpa [SetEvent] using hs
    | INVALID_HANDLE_VALUE => simpa [SetEvent] using hs
  | NULL => simp [isSignaled] at hs
  | INVALID_HANDLE_VALUE => simp [isSignaled] at hs

theorem isSignaled_ResetEvent_of_ne (s : List Nat) (h g : HANDLE) (hne : g ≠ h) :
    isSignaled (ResetEvent s g) h = isSignaled s h := by
  cases h with
  | obj e =>
    cases g with
    | obj f =>
      have hfe : e ≠ f := fun h => hne (by rw [h])
      simp [ResetEvent, isSignaled, hfe]
    | NULL => simp [ResetEvent]
    | INVALID_HANDLE_VALUE => simp [ResetEvent]
  | NULL => simp [isSignaled]
  | INVALID_HANDLE_VALUE => simp [isSignaled]

theorem WaitForMultipleObjects_first (hS hR hW : HANDLE) (s : List Nat)
    (oS : hS.isObj = true) (oR : hR.isObj = true) (oW : hW.isObj = true)
    (hs : isSignaled s hS = true) :
    WaitForMultipleObjects [hS, hR, hW] s = WaitResult.object 0 := by
  simp [WaitForMultipleObjects, oS, oR, oW, List.findIdx?, hs]

theorem CommThreadDispatch_shutdown (env : IterEnv) (w : World)
    (harr : w.port.m_hEventArray =
      [w.port.m_hShutdownEvent, w.port.m_ov_hEvent, w.port.m_hWriteEvent])
    (oS : w.port.m_hShutdownEvent.isObj = true) (oR : w.port.m_ov_hEvent.isObj = true)
    (oW : w.port.m_hWriteEvent.isObj = true)
    (hs : isSignaled w.signaled w.port.m_hShutdownEvent = true) :
    CommThreadDispatch env w =
      ({ w with port := { w.port with m_bThreadAlive := false } }, Control.exited) := by
  unfold CommThreadDispatch
  rw [harr, WaitForMultipleObjects_first _ _ _ _ oS oR oW hs]

theorem kernelOvEvent_keeps_shutdown (env : IterEnv) (w : World)
    (hne : w.port.m_ov_hEvent ≠ w.port.m_hShutdownEvent)
    (hs : isSignaled w.signaled w.port.m_hShutdownEvent = true) :
    isSignaled (kernelOvEvent env w).signaled (kernelOvEvent env w).port.m_hShutdownEvent
      = true := by
  unfold kernelOvEvent
  cases env.ovSignaled
  · show isSignaled (ResetEvent w.signaled w.port.m_ov_hEvent) w.port.m_hShutdownEvent = true
    rw [isSignaled_ResetEvent_of_ne _ _ _ hne]
    exact hs
  · exact isSignaled_SetEvent_of _ _ _ hs

theorem CommThreadIter_wait_shutdown (env : IterEnv) (w : World)
    (harr : w.port.m_hEventArray =
      [w.port.m_hShutdownEvent, w.port.m_ov_hEvent, w.port.m_hWriteEvent])
    (oS : w.port.m_hShutdownEvent.isObj = true) (oR : w.port.m_ov_hEvent.isObj = true)
    (oW : w.port.m_hWriteEvent.isObj = true)
    (hne : w.port.m_ov_hEvent ≠ w.port.m_hShutdownEvent)
    (hs : isSignaled w.signaled w.port.m_hShutdownEvent = true) :
    CommThreadDispatch env (kernelOvEvent env w) =
      ({ kernelOvEvent env w with port := { w.port with m_bThreadAlive := false } },
       Control.exited) :=
  CommThreadDispatch_shutdown env (kernelOvEvent env w) harr oS oR oW
    (kernelOvEvent_keeps_shutdown env w hne hs)

/-- C8: in a pass of the worker loop that reaches `WaitForMultipleObjects` with the
shutdown event signalled, in a session whose event array is the one `Open` assigns,
whatever the state of the read event (`env.ovSignaled`) and of the write event, the
worker takes the branch `EVENT_SHUTDOWN`: it clears `m_bThreadAlive` and exits the
thread, the device is untouched (no read path, no write path), the staged length is
unchanged and no message is posted to the owner in that pass. -/
theorem shutdown_preempts_read_and_write (env : IterEnv) (w : World)
    (harr : w.port.m_hEventArray =
      [w.port.m_hShutdownEvent, w.port.m_ov_hEvent, w.port.m_hWriteEvent])
    (oS : w.port.m_hShutdownEvent.isObj = true) (oR : w.port.m_ov_hEvent.isObj = true)
    (oW : w.port.m_hWriteEvent.isObj = true)
    (hne : w.port.m_ov_hEvent ≠ w.port.m_hShutdownEvent)
    (hs : isSignaled w.signaled w.port.m_hShutdownEvent = true)
    (hreach : ¬ (env.waitCommEvent = WaitCommResult.completed ∧ w.device.rxQueue.length = 0)) :
    (CommThreadIter env w).2 = Control.exited ∧
    (CommThreadIter env w).1.port.m_bThreadAlive = false ∧
    (CommThreadIter env w).1.posted = w.posted ∧
    (CommThreadIter env w).1.device = w.device ∧
    (CommThreadIter env w).1.port.m_nWriteSize = w.port.m_nWriteSize := by
  unfold CommThreadIter
  cases hc : env.waitCommEvent with
  | completed =>
    have hq : ¬ w.device.rxQueue.length = 0 := fun h => hreach ⟨hc, h⟩
    simp only [if_neg hq]
    rw [CommThreadIter_wait_shutdown env w harr oS oR oW hne hs]
    exact ⟨rfl, rfl, rfl, rfl, rfl⟩
  | pending =>
    simp only
    rw [CommThreadIter_wait_shutdown env w harr oS oR oW hne hs]
    exact ⟨rfl, rfl, rfl, rfl, rfl⟩
  | invalidParameter =>
    simp only
    rw [CommThreadIter_wait_shutdown env w harr oS oR oW hne hs]
    exact ⟨rfl, rfl, rfl, rfl, rfl⟩
  | error =>
    simp only
    rw [CommThreadIter_wait_shutdown env (ProcessErrorMessage w ErrorText.WaitCommEvent)
      harr oS oR oW hne hs]
    exact ⟨rfl, rfl, rfl, rfl, rfl⟩

theorem shutdown_preempts_read_and_write_witness :
    (CommThreadIter (calmEnv true 4) allSignaled).2 = Control.exited ∧
    (CommThreadIter (calmEnv true 4) allSignaled).1.port.m_bThreadAlive = false ∧
    (CommThreadIter (calmEnv true 4) allSignaled).1.posted = allSignaled.posted ∧
    (CommThreadIter (calmEnv true 4) allSignaled).1.device = allSignaled.device ∧
    (CommThreadIter (calmEnv true 4) allSignaled).1.port.m_nWriteSize =
      allSignaled.port.m_nWriteSize :=
  shutdown_preempts_read_and_write (calmEnv true 4) allSignaled rfl rfl rfl rfl
    (by decide) (by decide) (by decide)

theorem ReceiveCharLoop_drains (reads : Nat → ReadOutcome)
    (hok : ∀ i, (reads i).bResult = true ∧ (reads i).got = true ∧ (reads i).errors = []) :
    ∀ (q : List BYTE) (fuel i : Nat) (w : World), w.device.rxQueue = q →
      w.port.m_bThreadAlive = true →
      isSignaled w.signaled w.port.m_hShutdownEvent = false →
      q.length < fuel →
      ReceiveCharLoop reads fuel i w =
        some { w with
          device := { w.device with rxQueue := [] }
          posted := w.posted ++ q.map (fun b => { wParam := b.val, lParam := EV_RXCHAR }) } := by
  intro q
  induction q with
  | nil =>
    intro fuel i w hq halive hsd hfuel
    cases fuel with
    | zero => simp at hfuel
    | succ f =>
      rcases w with ⟨port, sig, ⟨rx, wr, fl, cm, dcb, tmo, qs⟩, posted, reported, released⟩
      simp only at hq halive hsd
      subst hq
      simp [ReceiveCharLoop, halive, hsd]
  | cons b rest ih =>
    intro fuel i w hq halive hsd hfuel
    cases fuel with
    | zero => simp at hfuel
    | succ f =>
      obtain ⟨h1, h2, h3⟩ := hok i
      rcases w with ⟨port, sig, ⟨rx, wr, fl, cm, dcb, tmo, qs⟩, posted, reported, released⟩
      simp only at hq halive hsd
      subst hq
      simp only [ReceiveCharLoop, halive, hsd, h1, h2, h3, List.append_nil, Bool.and_self,
        if_true, Bool.false_eq_true, if_false]
      rw [ih f (i + 1) _ rfl halive hsd (by simpa using hfuel)]
      simp

/-- C9: when the worker is alive, the shutdown event is not signalled and every
`ReadFile` (at once or after pending) succeeds with one byte, `ReceiveChar` returns
(given more loop passes than queued bytes) with the device queue empty, having posted
one message `(byte, EV_RXCHAR)` per queued byte, in arrival order, and nothing else
(for an empty queue it returns at once and posts nothing). -/
theorem ReceiveChar_posts_every_byte (reads : Nat → ReadOutcome) (fuel : Nat) (w : World)
    (halive : w.port.m_bThreadAlive = true)
    (hsd : isSignaled w.signaled w.port.m_hShutdownEvent = false)
    (hok : ∀ i, (reads i).bResult = true ∧ (reads i).got = true)
    (hfuel : w.device.rxQueue.length < fuel) :
    ReceiveChar reads fuel w =
      some { w with
        device := { w.device with rxQueue := [] }
        posted := w.posted ++
          w.device.rxQueue.map (fun b => { wParam := b.val, lParam := EV_RXCHAR }) } := by
  have hok3 : ∀ i, (reads i).bResult = true ∧ (reads i).got = true ∧ (reads i).errors = [] := by
    intro i
    obtain ⟨h1, h2⟩ := hok i
    refine ⟨h1, h2, ?_⟩
    cases hr : reads i with
    | done g => rfl
    | pending ok g => rw [hr] at h1; simp only [ReadOutcome.bResult] at h1; simp [ReadOutcome.errors, h1]
    | error => rw [hr] at h1; simp [ReadOutcome.bResult] at h1
  exact ReceiveCharLoop_drains reads hok3 w.device.rxQueue fuel 0 w rfl halive hsd hfuel

theorem ReceiveChar_posts_every_byte_witness :
    ReceiveChar (fun _ => ReadOutcome.pending true true) 5 pongQueued =
      some { pongQueued with
        device := { pongQueued.device with rxQueue := [] }
        posted := pongQueued.posted ++
          pongQueued.device.rxQueue.map (fun b => { wParam := b.val, lParam := EV_RXCHAR }) } :=
  ReceiveChar_posts_every_byte (fun _ => ReadOutcome.pending true true) 5 pongQueued
    (by decide) (by decide) (fun _ => ⟨rfl, rfl⟩) (by decide)

/-- The scenario of the specification: with "PONG" queued, the read path posts
'P', 'O', 'N', 'G' in this order and leaves the queue empty. -/
theorem ReceiveChar_PONG :
    (ReceiveChar (fun _ => ReadOutcome.done true) 5 pongQueued).map (fun w => w.posted) =
      some [{ wParam := 80, lParam := 1 }, { wParam := 79, lParam := 1 },
        { wParam := 78, lParam := 1 }, { wParam := 71, lParam := 1 }] ∧
    (ReceiveChar (fun _ => ReadOutcome.done true) 5 pongQueued).map
      (fun w => w.device.rxQueue) = some [] := by
  decide

theorem WriteOutcome.completes_spec (out : WriteOutcome) (L : Nat) (h : out.completes L) :
    out.sentA + out.sentB = L ∧ out.errors = [] := by
  cases out with
  | done a => exact ⟨by simpa [WriteOutcome.completes] using h, rfl⟩
  | pending a ok b =>
    cases ok with
    | true => exact ⟨by simpa [WriteOutcome.completes] using h, rfl⟩
    | false => simp [WriteOutcome.completes] at h
  | error a => simp [WriteOutcome.completes] at h

theorem WriteChar_completes (out : WriteOutcome) (w : World) (L : Nat)
    (hL : w.port.m_nWriteSize = L) (hlt : L < 2147483648) (hout : out.completes L) :
    WriteChar out w =
      ({ w with
          signaled := ResetEvent w.signaled w.port.m_hWriteEvent
          port := { w.port with m_ov_Offset := 0, m_ov_OffsetHigh := 0, m_nWriteSize := 0 }
          device := { w.device with
            written := w.device.written ++ [staged w.port]
            flushes := if L = 1 then w.device.flushes + 1 else w.device.flushes } },
       Exit.ret L) := by
  obtain ⟨hsum, herr⟩ := WriteOutcome.completes_spec out L hout
  have hd : toDWORD (L : Int) = L := by
    unfold toDWORD; omega
  have hmod : (out.sentA + out.sentB) % 4294967296 = L := by
    rw [hsum]; omega
  unfold WriteChar
  simp only [hL, hd, hmod, herr, reportAll_nil, staged, Int.toNat_ofNat, ne_eq,
    not_true_eq_false, if_false]
  by_cases h1 : L = 1
  · subst h1
    have hd1 : toDWORD (1 : Int) = 1 := by decide
    simp [hd1]
  · have h2 : ¬ ((L : Int) = 1) := by omega
    simp only [h1, h2, hd, if_false, not_true_eq_false]

/-- C10: in an open session with `L > 0` bytes staged within the array, when the worker is woken for
`EVENT_WRITE` and the device write completes (at once, or after pending) with `L` bytes
in total, `WriteChar` issues exactly one `WriteFile` request whose data are the first
`L` bytes of the staging array, resets the write event, sets the staged length to 0 and
returns `L`; the worker then posts exactly one message `(L, EV_TXEMPTY)` and goes back
to its loop. -/
theorem write_cycle_sends_staged_bytes (env : IterEnv) (w : World) (L : Nat)
    (hopen : OpenSession w) (hL : w.port.m_nWriteSize = L) (hpos : 0 < L)
    (hfit : L ≤ w.port.m_nWriteBufferSize) (hout : env.write.completes L)
    (hwait : WaitForMultipleObjects w.port.m_hEventArray w.signaled =
      WaitResult.object EVENT_WRITE) :
    (WriteChar env.write w).2 = Exit.ret L ∧
    (WriteChar env.write w).1.device.written = w.device.written ++ [staged w.port] ∧
    (staged w.port).length = L ∧
    isSignaled (WriteChar env.write w).1.signaled (WriteChar env.write w).1.port.m_hWriteEvent
      = false ∧
    (WriteChar env.write w).1.port.m_nWriteSize = 0 ∧
    (WriteChar env.write w).1.posted = w.posted ∧
    CommThreadDispatch env w =
      ({ (WriteChar env.write w).1 with
          posted := w.posted ++ [{ wParam := L, lParam := EV_TXEMPTY }] },
       Control.again) := by
  have hlt : L < 2147483648 := by have := hopen.2.2.2.2.1; omega
  have hW := WriteChar_completes env.write w L hL hlt hout
  obtain ⟨buf, hbuf, hlen⟩ := OpenSession_buffer w hopen
  refine ⟨by rw [hW], by rw [hW], ?_, ?_, by rw [hW], by rw [hW], ?_⟩
  · simp only [staged, hbuf, Option.getD_some, hL, Int.toNat_ofNat, List.length_take]
    omega
  · rw [hW]
    exact isSignaled_ResetEvent _ _
  · unfold CommThreadDispatch
    rw [hwait, hW]
    rfl

theorem write_cycle_sends_staged_bytes_witness :
    (WriteChar (calmEnv false 4).write pingStaged).2 = Exit.ret 4 ∧
    (WriteChar (calmEnv false 4).write pingStaged).1.device.written =
      pingStaged.device.written ++ [staged pingStaged.port] ∧
    (staged pingStaged.port).length = 4 ∧
    isSignaled (WriteChar (calmEnv false 4).write pingStaged).1.signaled
      (WriteChar (calmEnv false 4).write pingStaged).1.port.m_hWriteEvent = false ∧
    (WriteChar (calmEnv false 4).write pingStaged).1.port.m_nWriteSize = 0 ∧
    (WriteChar (calmEnv false 4).write pingStaged).1.posted = pingStaged.posted ∧
    CommThreadDispatch (calmEnv false 4) pingStaged =
      ({ (WriteChar (calmEnv false 4).write pingStaged).1 with
          posted := pingStaged.posted ++ [{ wParam := 4, lParam := EV_TXEMPTY }] },
       Control.again) :=
  write_cycle_sends_staged_bytes (calmEnv false 4) pingStaged 4 (by decide) (by decide)
    (by decide) (by decide) rfl (by decide)

/-- The scenario of the specification: after `Write( "PING" )` one pass of the worker
hands "PING" to the device and posts the single message `(4, EV_TXEMPTY)`. -/
theorem CommThreadIter_PING :
    (CommThreadIter (calmEnv false 4) pingStaged).1.device.written = [PING] ∧
    (CommThreadIter (calmEnv false 4) pingStaged).1.posted = [{ wParam := 4, lParam := 4 }] ∧
    (CommThreadIter (calmEnv false 4) pingStaged).2 = Control.again := by
  decide

theorem lor_eq_zero (x y : Nat) : x ||| y = 0 ↔ x = 0 ∧ y = 0 := by
  constructor
  · intro h
    constructor
    · apply Nat.eq_of_testBit_eq
      intro i
      have := congrArg (fun z => Nat.testBit z i) h
      simp only [Nat.testBit_or, Nat.zero_testBit, Bool.or_eq_false_iff] at this
      simp [this.1]
    · apply Nat.eq_of_testBit_eq
      intro i
      have := congrArg (fun z => Nat.testBit z i) h
      simp only [Nat.testBit_or, Nat.zero_testBit, Bool.or_eq_false_iff] at this
      simp [this.2]
  · rintro ⟨rfl, rfl⟩
    rfl

theorem cleared_testBit (m : Nat) (hm : m < 4294967296) (i : Nat) :
    ((m &&& notDWORD EV_RXCHAR) &&& notDWORD EV_TXEMPTY).testBit i =
      (m.testBit i && decide (i ≠ 0) && decide (i ≠ 2)) := by
  have h32 : (4294967295 : Nat) = 2 ^ 32 - 1 := by norm_num
  have h1 : (1 : Nat).testBit i = decide (i = 0) := by
    have := Nat.testBit_two_pow_sub_one 1 i
    simpa using this
  have h4 : (4 : Nat).testBit i = decide (i = 2) := by
    have := @Nat.testBit_two_pow 2 i
    simpa [eq_comm] using this
  simp only [notDWORD, EV_RXCHAR, EV_TXEMPTY, Nat.testBit_and, Nat.testBit_xor, h32,
    Nat.testBit_two_pow_sub_one, h1, h4]
  by_cases hi : i < 32
  · by_cases h0 : i = 0 <;> by_cases h2 : i = 2 <;> simp [hi, h0, h2]
  · have hf : m.testBit i = false := by
      apply Nat.testBit_lt_two_pow
      calc m < 2 ^ 32 := by norm_num; exact hm
        _ ≤ 2 ^ i := Nat.pow_le_pow_right (by norm_num) (by omega)
    simp [hf]

theorem line_mask_test (m : Nat) :
    m &&& (EV_CTS ||| EV_DSR ||| EV_RLSD ||| EV_RXFLAG ||| EV_BREAK ||| EV_ERR ||| EV_RING) ≠ 0 ↔
      (m &&& EV_CTS ≠ 0 ∨ m &&& EV_DSR ≠ 0 ∨ m &&& EV_RLSD ≠ 0 ∨ m &&& EV_RXFLAG ≠ 0 ∨
        m &&& EV_BREAK ≠ 0 ∨ m &&& EV_ERR ≠ 0 ∨ m &&& EV_RING ≠ 0) := by
  simp only [Nat.and_or_distrib_left, ne_eq, lor_eq_zero]
  tauto

/-- C11 (as amended): when the worker is woken for `EVENT_READ`, the device's event
mask is the `DWORD` `m` and the read path (run when `m` has `EV_RXCHAR`) has returned,
the worker posts the line-status message `(0, mask)` if and only if `m` has at least
one of the bits `EV_CTS`, `EV_DSR`, `EV_RLSD`, `EV_RXFLAG`, `EV_BREAK`, `EV_ERR`,
`EV_RING`; it posts nothing else after the read path and goes back to its loop; and
`mask` is `m` with bit 0 (`EV_RXCHAR`) and bit 2 (`EV_TXEMPTY`) cleared and every other
bit unchanged. -/
theorem read_dispatch_line_status (env : IterEnv) (w w1 : World) (m : Nat)
    (hwait : WaitForMultipleObjects w.port.m_hEventArray w.signaled =
      WaitResult.object EVENT_READ)
    (hm : w.device.commMask = m) (hdw : m < 4294967296)
    (hret : (if m &&& EV_RXCHAR ≠ 0 then ReceiveChar env.reads env.readFuel w else some w)
      = some w1) :
    ((m &&& EV_CTS ≠ 0 ∨ m &&& EV_DSR ≠ 0 ∨ m &&& EV_RLSD ≠ 0 ∨ m &&& EV_RXFLAG ≠ 0 ∨
        m &&& EV_BREAK ≠ 0 ∨ m &&& EV_ERR ≠ 0 ∨ m &&& EV_RING ≠ 0) →
      CommThreadDispatch env w =
        ({ w1 with posted := w1.posted ++
            [{ wParam := 0, lParam := (m &&& notDWORD EV_RXCHAR) &&& notDWORD EV_TXEMPTY }] },
         Control.again)) ∧
    (¬ (m &&& EV_CTS ≠ 0 ∨ m &&& EV_DSR ≠ 0 ∨ m &&& EV_RLSD ≠ 0 ∨ m &&& EV_RXFLAG ≠ 0 ∨
        m &&& EV_BREAK ≠ 0 ∨ m &&& EV_ERR ≠ 0 ∨ m &&& EV_RING ≠ 0) →
      CommThreadDispatch env w = (w1, Control.again)) ∧
    (∀ i, ((m &&& notDWORD EV_RXCHAR) &&& notDWORD EV_TXEMPTY).testBit i =
      (m.testBit i && decide (i ≠ 0) && decide (i ≠ 2))) := by
  have hd : CommThreadDispatch env w =
      if m &&& (EV_CTS ||| EV_DSR ||| EV_RLSD ||| EV_RXFLAG ||| EV_BREAK ||| EV_ERR ||| EV_RING)
          ≠ 0 then
        ({ w1 with posted := w1.posted ++
            [{ wParam := 0, lParam := (m &&& notDWORD EV_RXCHAR) &&& notDWORD EV_TXEMPTY }] },
         Control.again)
      else (w1, Control.again) := by
    unfold CommThreadDispatch
    rw [hwait]
    simp only [EVENT_READ, hm, hret]
  refine ⟨fun h => ?_, fun h => ?_, cleared_testBit m hdw⟩
  · rw [hd, if_pos ((line_mask_test m).2 h)]
  · rw [hd, if_neg (fun hc => h ((line_mask_test m).1 hc))]

theorem read_dispatch_line_status_witness :
    (((EV_RXCHAR ||| EV_CTS) &&& EV_CTS ≠ 0 ∨ (EV_RXCHAR ||| EV_CTS) &&& EV_DSR ≠ 0 ∨
        (EV_RXCHAR ||| EV_CTS) &&& EV_RLSD ≠ 0 ∨ (EV_RXCHAR ||| EV_CTS) &&& EV_RXFLAG ≠ 0 ∨
        (EV_RXCHAR ||| EV_CTS) &&& EV_BREAK ≠ 0 ∨ (EV_RXCHAR ||| EV_CTS) &&& EV_ERR ≠ 0 ∨
        (EV_RXCHAR ||| EV_CTS) &&& EV_RING ≠ 0) →
      CommThreadDispatch (calmEnv true 0) (readReady (EV_RXCHAR ||| EV_CTS) PONG) =
        ({ readReady (EV_RXCHAR ||| EV_CTS) [] with posted :=
            [{ wParam := 80, lParam := 1 }, { wParam := 79, lParam := 1 },
              { wParam := 78, lParam := 1 }, { wParam := 71, lParam := 1 }] ++
            [{ wParam := 0, lParam :=
                ((EV_RXCHAR ||| EV_CTS) &&& notDWORD EV_RXCHAR) &&& notDWORD EV_TXEMPTY }] },
         Control.again)) ∧
    (¬ ((EV_RXCHAR ||| EV_CTS) &&& EV_CTS ≠ 0 ∨ (EV_RXCHAR ||| EV_CTS) &&& EV_DSR ≠ 0 ∨
        (EV_RXCHAR ||| EV_CTS) &&& EV_RLSD ≠ 0 ∨ (EV_RXCHAR ||| EV_CTS) &&& EV_RXFLAG ≠ 0 ∨
        (EV_RXCHAR ||| EV_CTS) &&& EV_BREAK ≠ 0 ∨ (EV_RXCHAR ||| EV_CTS) &&& EV_ERR ≠ 0 ∨
        (EV_RXCHAR ||| EV_CTS) &&& EV_RING ≠ 0) →
      CommThreadDispatch (calmEnv true 0) (readReady (EV_RXCHAR ||| EV_CTS) PONG) =
        ({ readReady (EV_RXCHAR ||| EV_CTS) [] with posted :=
            [{ wParam := 80, lParam := 1 }, { wParam := 79, lParam := 1 },
              { wParam := 78, lParam := 1 }, { wParam := 71, lParam := 1 }] },
         Control.again)) ∧
    (∀ i, (((EV_RXCHAR ||| EV_CTS) &&& notDWORD EV_RXCHAR) &&& notDWORD EV_TXEMPTY).testBit i =
      ((EV_RXCHAR ||| EV_CTS).testBit i && decide (i ≠ 0) && decide (i ≠ 2))) :=
  read_dispatch_line_status (calmEnv true 0) (readReady (EV_RXCHAR ||| EV_CTS) PONG)
    { readReady (EV_RXCHAR ||| EV_CTS) [] with posted :=
        [{ wParam := 80, lParam := 1 }, { wParam := 79, lParam := 1 },
          { wParam := 78, lParam := 1 }, { wParam := 71, lParam := 1 }] }
    (EV_RXCHAR ||| EV_CTS) (by decide) rfl (by decide) (by decide)

/-- C11 as stated fails: with the event mask `EV_RXFLAG`, which has none of the bits
`EV_CTS`, `EV_DSR`, `EV_RLSD`, `EV_BREAK`, `EV_ERR`, `EV_RING`, the worker woken for
`EVENT_READ` posts the line-status message `(0, EV_RXFLAG)`. -/
theorem rxflag_alone_posts_line_status :
    WaitForMultipleObjects (readReady EV_RXFLAG []).port.m_hEventArray
      (readReady EV_RXFLAG []).signaled = WaitResult.object EVENT_READ ∧
    (readReady EV_RXFLAG []).device.commMask = EV_RXFLAG ∧
    EV_RXFLAG &&& EV_CTS = 0 ∧ EV_RXFLAG &&& EV_DSR = 0 ∧ EV_RXFLAG &&& EV_RLSD = 0 ∧
    EV_RXFLAG &&& EV_BREAK = 0 ∧ EV_RXFLAG &&& EV_ERR = 0 ∧ EV_RXFLAG &&& EV_RING = 0 ∧
    (CommThreadIter (calmEnv true 0) (readReady EV_RXFLAG [])).1.posted =
      [{ wParam := 0, lParam := EV_RXFLAG }] := by
  decide

/-- A failed `WriteFile` with "PING" staged and no byte transferred: the worker is alive,
the pass reports "WriteFile()", posts nothing and ends in the failed assertion
`(BytesSentA + BytesSentB) == pPort->m_nWriteSize` of `WriteChar`. -/
theorem failed_write_with_staged_bytes_aborts :
    pingStaged.port.m_bThreadAlive = true ∧
    pingStaged.port.m_nWriteSize = 4 ∧
    (CommThreadIter failedWriteEnv pingStaged).1.reported = [ErrorText.WriteFile] ∧
    (CommThreadIter failedWriteEnv pingStaged).1.posted = [] ∧
    (CommThreadIter failedWriteEnv pingStaged).2 = Control.aborted Assertion.bytesSentMatch := by
  decide

/-- A failed `WriteFile` with nothing staged: the failure is reported, the byte count 0
matches the staged length 0, and the worker posts `(0, EV_TXEMPTY)` and goes back to its
loop with the alive flag set. -/
theorem failed_write_with_nothing_staged_continues :
    (CommThreadIter failedWriteEnv
      { (CommThread [] (openedWorld 64)).1 with signaled := [2] }).1.reported =
        [ErrorText.WriteFile] ∧
    (CommThreadIter failedWriteEnv
      { (CommThread [] (openedWorld 64)).1 with signaled := [2] }).1.posted =
        [{ wParam := 0, lParam := EV_TXEMPTY }] ∧
    (CommThreadIter failedWriteEnv
      { (CommThread [] (openedWorld 64)).1 with signaled := [2] }).1.port.m_bThreadAlive = true ∧
    (CommThreadIter failedWriteEnv
      { (CommThread [] (openedWorld 64)).1 with signaled := [2] }).2 = Control.again := by
  decide

/-- A pass of the worker in which the read event is signalled, "PONG" is queued and the
first `ReadFile` fails without transferring a byte: the failure is reported as
"ReadFile()", the later passes of the read loop deliver the four bytes, and the worker
goes back to its loop with the alive flag set. -/
theorem failed_read_pass_returns_to_loop :
    (CommThreadIter { stormEnv with waitCommEvent := WaitCommResult.pending, ovSignaled := true }
      (readReady EV_RXCHAR PONG)).2 = Control.again ∧
    (CommThreadIter { stormEnv with waitCommEvent := WaitCommResult.pending, ovSignaled := true }
      (readReady EV_RXCHAR PONG)).1.reported = [ErrorText.ReadFile] ∧
    (CommThreadIter { stormEnv with waitCommEvent := WaitCommResult.pending, ovSignaled := true }
      (readReady EV_RXCHAR PONG)).1.posted =
        PONG.map (fun c => { wParam := c.val, lParam := EV_RXCHAR }) ∧
    (CommThreadIter { stormEnv with waitCommEvent := WaitCommResult.pending, ovSignaled := true }
      (readReady EV_RXCHAR PONG)).1.port.m_bThreadAlive = true := by
  decide

theorem strlen_lt (src : List BYTE) (n : Nat) (h : strlen src = some n) : n < src.length := by
  unfold strlen at h
  dsimp only at h
  split_ifs at h with hlt
  simp only [Option.some.injEq] at h
  omega

theorem toInt32_le_self (z : Int) (h : 0 ≤ z) : toInt32 z ≤ z := by
  unfold toInt32
  omega

theorem WriteStr_rejected_size (w : World) (src : List BYTE) (n : Nat)
    (hcomm : w.port.m_hComm ≠ HANDLE.INVALID_HANDLE_VALUE) (hlen : strlen src = some n)
    (h : ¬ (toInt32 n > 0)) :
    WriteStr w (some src) = (w, Exit.assertFailed Assertion.sizePositive) ∧
    Write w (some src) (toInt32 n) = (w, Exit.assertFailed Assertion.sizePositive) := by
  constructor
  · unfold WriteStr
    simp only [hlen]
    rw [if_neg hcomm, if_pos h]
  · unfold Write
    rw [if_neg hcomm]
    dsimp only
    rw [if_pos h]

theorem WriteStr_rejected_fit (w : World) (src : List BYTE) (n : Nat)
    (hcomm : w.port.m_hComm ≠ HANDLE.INVALID_HANDLE_VALUE) (hlen : strlen src = some n)
    (h : toInt32 n > 0)
    (hf : ¬ (toInt32 (w.port.m_nWriteSize + toInt32 n) < toInt32 w.port.m_nWriteBufferSize)) :
    WriteStr w (some src) = (w, Exit.assertFailed Assertion.fitsBuffer) ∧
    Write w (some src) (toInt32 n) = (w, Exit.assertFailed Assertion.fitsBuffer) := by
  constructor
  · unfold WriteStr
    simp only [hlen]
    rw [if_neg hcomm, if_neg (not_not_intro h), if_pos hf]
  · unfold Write
    rw [if_neg hcomm]
    dsimp only
    rw [if_neg (not_not_intro h), if_pos hf]

theorem WriteStr_accepted (w : World) (src buf : List BYTE) (L n : Nat)
    (hcomm : w.port.m_hComm ≠ HANDLE.INVALID_HANDLE_VALUE)
    (hbuf : w.port.m_szWriteBuffer = some buf) (hblen : L + n < buf.length)
    (hL : w.port.m_nWriteSize = L) (hlen : strlen src = some n)
    (hn : toInt32 n = n) (hpos : 0 < n)
    (hf : toInt32 (w.port.m_nWriteSize + toInt32 n) < toInt32 w.port.m_nWriteBufferSize) :
    WriteStr w (some src) =
      ({ w with
          port := { w.port with
            m_szWriteBuffer := some (buf.take L ++ src.take (n + 1) ++ buf.drop (L + (n + 1)))
            m_nWriteSize := toInt32 ((L : Int) + n) }
          signaled := SetEvent w.signaled w.port.m_hWriteEvent },
       Exit.ret ()) ∧
    Write w (some src) (toInt32 n) =
      ({ w with
          port := { w.port with
            m_szWriteBuffer := some (buf.take L ++ src.take n ++ buf.drop (L + n))
            m_nWriteSize := toInt32 ((L : Int) + n) }
          signaled := SetEvent w.signaled w.port.m_hWriteEvent },
       Exit.ret ()) := by
  have hsl := strlen_lt src n hlen
  have hp : toInt32 (n : Int) > 0 := by rw [hn]; omega
  have m1 := memcpy_some buf src L (n + 1) (by omega) (by omega)
  have m2 := memcpy_some buf src L n (by omega) (by omega)
  constructor
  · unfold WriteStr
    simp only [hlen]
    rw [if_neg hcomm, if_neg (not_not_intro hp), if_neg (not_not_intro hf)]
    rw [hbuf, hL]
    have : ((n : Int) + 1) = ((n + 1 : Nat) : Int) := by push_cast; rfl
    rw [this, m1, hn]
  · unfold Write
    rw [if_neg hcomm]
    dsimp only
    rw [if_neg (not_not_intro hp), if_neg (not_not_intro hf)]
    rw [hbuf, hL, hn, m2]

theorem take_prefix_eq (a s c : List BYTE) (n : Nat) (m : Nat) (hn : n ≤ m) (hs : m ≤ s.length) :
    List.take (a.length + n) (a ++ List.take m s ++ c) = a ++ List.take n s := by
  rw [List.append_assoc, List.take_append]
  congr 1
  rw [List.take_append_of_le_length (by simp; omega), List.take_take]
  congr 1
  omega

theorem take_le_congr (l1 l2 : List BYTE) (k m : Nat) (hk : k ≤ m)
    (h : List.take m l1 = List.take m l2) : List.take k l1 = List.take k l2 := by
  have e1 : List.take k l1 = List.take k (List.take m l1) := by
    rw [List.take_take, Nat.min_eq_left hk]
  have e2 : List.take k l2 = List.take k (List.take m l2) := by
    rw [List.take_take, Nat.min_eq_left hk]
  rw [e1, e2, h]

theorem WriteStr_matches_of_arrays (r1 r2 : World × Exit Unit) (buf src : List BYTE)
    (L n : Nat) (hb : L + n < buf.length) (hsl : n < src.length)
    (x1 : r1.2 = Exit.ret ()) (x2 : r2.2 = Exit.ret ())
    (b1 : r1.1.port.m_szWriteBuffer =
      some (buf.take L ++ src.take (n + 1) ++ buf.drop (L + (n + 1))))
    (b2 : r2.1.port.m_szWriteBuffer = some (buf.take L ++ src.take n ++ buf.drop (L + n)))
    (s1 : r1.1.port.m_nWriteSize = toInt32 ((L : Int) + n))
    (s2 : r2.1.port.m_nWriteSize = toInt32 ((L : Int) + n))
    (hk : (toInt32 ((L : Int) + n)).toNat ≤ L + n) :
    r1.2 = r2.2 ∧ r1.2 ≠ Exit.fault ∧ L + n < buf.length ∧
    (∃ out out2, r1.1.port.m_szWriteBuffer = some out ∧
      r2.1.port.m_szWriteBuffer = some out2 ∧
      out.length = buf.length ∧
      (∀ i, i < L ∨ L + n < i → out[i]? = buf[i]?) ∧
      out.take (L + n) = out2.take (L + n)) ∧
    r1.1.port.m_nWriteSize = r2.1.port.m_nWriteSize ∧
    staged r1.1.port = staged r2.1.port := by
  have hl1 : (List.take L buf).length = L := by simp; omega
  have hl2 : (List.take (n + 1) src).length = n + 1 := by simp; omega
  have htake : List.take (L + n)
        (List.take L buf ++ List.take (n + 1) src ++ List.drop (L + (n + 1)) buf) =
      List.take (L + n) (List.take L buf ++ List.take n src ++ List.drop (L + n) buf) := by
    have t1 := take_prefix_eq (List.take L buf) src (List.drop (L + (n + 1)) buf) n (n + 1)
      (by omega) (by omega)
    have t2 := take_prefix_eq (List.take L buf) src (List.drop (L + n) buf) n n
      (by omega) (by omega)
    rw [hl1] at t1 t2
    rw [t1, t2]
  refine ⟨by rw [x1, x2], by rw [x1]; simp, hb, ⟨_, _, b1, b2, ?_, ?_, htake⟩, by rw [s1, s2], ?_⟩
  · simp only [List.length_append, List.length_take, List.length_drop]
    omega
  · intro i hi
    rcases hi with hi | hi
    · rw [List.append_assoc, List.getElem?_append_left (by omega)]
      simp [List.getElem?_take, hi]
    · rw [List.getElem?_append_right (by simp; omega)]
      simp only [List.length_append, hl1, hl2, List.getElem?_drop]
      congr 1
      omega
  · simp only [staged, b1, b2, s1, s2, Option.getD_some]
    exact take_le_congr _ _ _ _ hk htake

/-- C13: on an open session with staged length `L` and capacity `C`, for a
NUL-terminated string of length `n > 0` with `L + n < C`, `Write( char* )` and
`Write( Buffer, n )` (with `n` converted to the `int` parameter) end the same way and
never in a fault; the array after `Write( char* )` has its old length and differs from
the old array at most at the indices `L .. L+n`, which are all below `C`; and the two
calls produce the same first `L + n` bytes of the array, the same staged length and the
same staged region. -/
theorem WriteStr_matches_Write (w : World) (src buf : List BYTE) (L n : Nat)
    (hopen : OpenSession w) (hbuf : w.port.m_szWriteBuffer = some buf)
    (hL : w.port.m_nWriteSize = L) (hlen : strlen src = some n) (hn : 0 < n)
    (hfit : L + n < w.port.m_nWriteBufferSize) :
    (WriteStr w (some src)).2 = (Write w (some src) (toInt32 n)).2 ∧
    (WriteStr w (some src)).2 ≠ Exit.fault ∧
    L + n < buf.length ∧
    (∃ out out2, (WriteStr w (some src)).1.port.m_szWriteBuffer = some out ∧
      (Write w (some src) (toInt32 n)).1.port.m_szWriteBuffer = some out2 ∧
      out.length = buf.length ∧
      (∀ i, i < L ∨ L + n < i → out[i]? = buf[i]?) ∧
      out.take (L + n) = out2.take (L + n)) ∧
    (WriteStr w (some src)).1.port.m_nWriteSize =
      (Write w (some src) (toInt32 n)).1.port.m_nWriteSize ∧
    staged (WriteStr w (some src)).1.port = staged (Write w (some src) (toInt32 n)).1.port := by
  have hcomm := hopen.1
  have hcap := hopen.2.2.2.2.2
  have hblen : buf.length = w.port.m_nWriteBufferSize := by
    have h := hopen.2.2.1
    rw [hbuf] at h
    simpa using h
  have hb : L + n < buf.length := by omega
  have hsl := strlen_lt src n hlen
  have hk : (toInt32 ((L : Int) + n)).toNat ≤ L + n := by
    have := toInt32_le_self ((L : Int) + n) (by omega)
    omega
  by_cases hp : toInt32 (n : Int) > 0
  · by_cases hf : toInt32 (w.port.m_nWriteSize + toInt32 n) < toInt32 w.port.m_nWriteBufferSize
    · have hnn : toInt32 (n : Int) = n := by
        unfold toInt32 at hp ⊢
        omega
      obtain ⟨e1, e2⟩ := WriteStr_accepted w src buf L n hcomm hbuf hb hL hlen hnn hn hf
      have x1 : (WriteStr w (some src)).2 = Exit.ret () := by rw [e1]
      have x2 : (Write w (some src) (toInt32 n)).2 = Exit.ret () := by rw [e2]
      have b1 : (WriteStr w (some src)).1.port.m_szWriteBuffer =
          some (buf.take L ++ src.take (n + 1) ++ buf.drop (L + (n + 1))) := by rw [e1]
      have b2 : (Write w (some src) (toInt32 n)).1.port.m_szWriteBuffer =
          some (buf.take L ++ src.take n ++ buf.drop (L + n)) := by rw [e2]
      have s1 : (WriteStr w (some src)).1.port.m_nWriteSize = toInt32 ((L : Int) + n) := by
        rw [e1]
      have s2 : (Write w (some src) (toInt32 n)).1.port.m_nWriteSize =
          toInt32 ((L : Int) + n) := by rw [e2]
      exact WriteStr_matches_of_arrays (WriteStr w (some src)) (Write w (some src) (toInt32 n))
        buf src L n hb hsl x1 x2 b1 b2 s1 s2 hk
    · obtain ⟨e1, e2⟩ := WriteStr_rejected_fit w src n hcomm hlen hp hf
      rw [e1, e2]
      exact ⟨rfl, by simp, hb, ⟨buf, buf, hbuf, hbuf, rfl, fun _ _ => rfl, rfl⟩, rfl, rfl⟩
  · obtain ⟨e1, e2⟩ := WriteStr_rejected_size w src n hcomm hlen hp
    rw [e1, e2]
    exact ⟨rfl, by simp, hb, ⟨buf, buf, hbuf, hbuf, rfl, fun _ _ => rfl, rfl⟩, rfl, rfl⟩

theorem WriteStr_matches_Write_witness :
    (WriteStr oneStaged (some PINGZ)).2 = (Write oneStaged (some PINGZ) (toInt32 (4 : Nat))).2 ∧
    (WriteStr oneStaged (some PINGZ)).2 ≠ Exit.fault ∧
    1 + 4 < ([65] ++ List.replicate 63 (0 : BYTE)).length ∧
    (∃ out out2, (WriteStr oneStaged (some PINGZ)).1.port.m_szWriteBuffer = some out ∧
      (Write oneStaged (some PINGZ) (toInt32 (4 : Nat))).1.port.m_szWriteBuffer = some out2 ∧
      out.length = ([65] ++ List.replicate 63 (0 : BYTE)).length ∧
      (∀ i, i < 1 ∨ 1 + 4 < i → out[i]? = ([65] ++ List.replicate 63 (0 : BYTE))[i]?) ∧
      out.take (1 + 4) = out2.take (1 + 4)) ∧
    (WriteStr oneStaged (some PINGZ)).1.port.m_nWriteSize =
      (Write oneStaged (some PINGZ) (toInt32 (4 : Nat))).1.port.m_nWriteSize ∧
    staged (WriteStr oneStaged (some PINGZ)).1.port =
      staged (Write oneStaged (some PINGZ) (toInt32 (4 : Nat))).1.port :=
  WriteStr_matches_Write oneStaged PINGZ ([65] ++ List.replicate 63 (0 : BYTE)) 1 4
    (by decide) (by decide) (by decide) (by decide) (by decide) (by decide)

/-- The scenario `Write( "PING" )` on a session with one byte staged: the call
returns, the five bytes "PING" and NUL are at indices 1 .. 5, and the staged length
is 5. -/
theorem WriteStr_PING :
    (WriteStr oneStaged (some PINGZ)).2 = Exit.ret () ∧
    (WriteStr oneStaged (some PINGZ)).1.port.m_szWriteBuffer =
      some ([65, 80, 73, 78, 71, 0] ++ List.replicate 58 (0 : BYTE)) ∧
    (WriteStr oneStaged (some PINGZ)).1.port.m_nWriteSize = 5 ∧
    staged (WriteStr oneStaged (some PINGZ)).1.port = [65, 80, 73, 78, 71] := by
  decide

end SerialPort
